import Mathlib

/-!
Verification of the Aquaforest evaluation-RAG control core.

The definitions below are a shallow embedding of the Python source
(`workflow_nodes.py`, `workflow.py`, `components.py`, `business_handlers.py`,
`agent.py`, `config.py`, `state.py`).  Conventions used throughout:

* Python floats are modelled as `ℚ`; every numeric constant in the source
  (0.0, 3.0, 5.0, 6.0, 7.0, 9.0, 10.0) is exactly representable and the code
  only compares confidences, so rationals are a faithful model.
* Calls to the external LLM / retrieval oracles are modelled by explicit
  parameters.  A call that can raise is an `Except String String`
  (`.error e` models a raised exception with message `e`).
* `str.lower()` is modelled with `pyLower` (per-character ASCII case
  folding); all keyword constants in the source are ASCII.
* LangGraph `Annotated[..., operator.add]` channels: `evaluation_log` is
  modelled as an append (the nodes return only the new entries), while
  `attempt_confidences` / `attempt_history` / `all_results` are modelled as
  the full updated list that each node constructs before returning (the
  runtime's reducer would additionally duplicate the old prefix; no property
  below depends on the contents of those trace lists beyond the values that
  occur in them).
-/

/-- Model of Python `\s` on the ASCII range (space, tab, newline, carriage
return, vertical tab, form feed). -/
def isPySpace (c : Char) : Bool :=
  c == ' ' || c == '\t' || c == '\n' || c == '\r' || c == '\x0b' || c == '\x0c'

/-- Model of Python `str.strip()`: drop leading and trailing whitespace. -/
def pyStrip (s : String) : String :=
  String.mk (((s.data.dropWhile isPySpace).reverse.dropWhile isPySpace).reverse)

/-- Substring test on character lists: does `needle` occur contiguously in the
haystack?  Models Python `needle in haystack`. -/
def charsContains (needle : List Char) : List Char → Bool
  | [] => needle.isEmpty
  | c :: rest => needle.isPrefixOf (c :: rest) || charsContains needle rest

/-- Model of Python `sub in hay` on strings. -/
def strContains (hay sub : String) : Bool :=
  charsContains sub.data hay.data

/-- Model of `re.search(r'CONFIDENCE:\s*([1-9]|10)', text)` at one position:
the literal `CONFIDENCE:` must match here, then `\s*` skips whitespace, then
the alternation is tried.  Python alternation is leftmost-first, so the
branch `[1-9]` is tried before `10`; because `10` starts with `1`, a digit
position where `10` could match always lets `[1-9]` match first, hence the
`10` alternative can never be the one that succeeds.  `\s*` is greedy with
backtracking, but whitespace and digits are disjoint so the maximal skip is
equivalent. -/
def confDigitAt (l : List Char) : Option ℚ :=
  if ("CONFIDENCE:".data).isPrefixOf l then
    match (l.drop ("CONFIDENCE:".data.length)).dropWhile isPySpace with
    | [] => none
    | d :: _ =>
      -- the character class [1-9]
      if '1'.toNat ≤ d.toNat ∧ d.toNat ≤ '9'.toNat then
        some (((d.toNat - '0'.toNat : ℕ) : ℚ))
      else none
  else none

/-- `re.search` scans left to right for the first position where the whole
pattern matches. -/
def findConfidence : List Char → Option ℚ
  | [] => none
  | c :: rest =>
    match confDigitAt (c :: rest) with
    | some v => some v
    | none => findConfidence rest

/-- `float(confidence_match.group(1)) if confidence_match else default`. -/
def extractConfidence (text : String) (deflt : ℚ) : ℚ :=
  (findConfidence text.data).getD deflt

/-- Model of `re.search(r'REASONING:\s*(.+)', text, re.DOTALL)`: everything
after the first `REASONING:` marker, with leading whitespace skipped, then
`.strip()`-ed.  (The backtracking corner where `(.+)` captures trailing
whitespace because nothing else is left changes only the reasoning string,
never the confidence.) -/
def findReasoning : List Char → Option String
  | [] => none
  | c :: rest =>
    if ("REASONING:".data).isPrefixOf (c :: rest) then
      match ((c :: rest).drop ("REASONING:".data.length)).dropWhile isPySpace with
      | [] => none
      | d :: tl => some (pyStrip (String.mk (d :: tl)))
    else findReasoning rest

/-- A retrieved document as shaped by `search_knowledge` in `components.py`.
The `pinecone_score` is carried but never consulted by the core. -/
structure Doc where
  pinecone_score : ℚ
  title : String
  full_content : String
  content_type : String
  url : String
  domain : String
  category : String
  deriving Repr, DecidableEq

/-- `components.evaluate_content_quality`: empty results short-circuit to
confidence 0.0 with no oracle call (the oracle argument is unused on that
path); an oracle exception yields the fixed (3.0, error-tagged rationale);
otherwise the reply is parsed with default confidence 5.0. -/
def evaluate_content_quality (oracle : Except String String) (query : String)
    (results : List Doc) : ℚ × String :=
  if results.isEmpty then (0, "No search results to evaluate")
  else
    match oracle with
    | .error e => (3, "Evaluation failed: " ++ e)
    | .ok txt =>
      (extractConfidence txt 5, (findReasoning txt.data).getD "No reasoning provided")

/-- `evaluate_augmented_response` in `workflow_nodes.py`: the second-pass
evaluator for augmented answers; default confidence on a missing pattern is
3.0, and an oracle exception yields (3.0, error-tagged rationale).  The three
string arguments only feed the oracle prompt. -/
def evaluate_augmented_response (oracle : Except String String)
    (augmented_response original_query partialContent : String) : ℚ × String :=
  match oracle with
  | .error e => (3, "Evaluation failed: " ++ e)
  | .ok txt =>
    (extractConfidence txt 3, (findReasoning txt.data).getD "No reasoning provided")

/-- `MAX_REASONING_ATTEMPTS` from `config.py`. -/
def MAX_REASONING_ATTEMPTS : Nat := 3

/-- The memoized best partial result tracked by
`enhanced_evaluate_content_quality_v2` (the `best_partial` dict; the
`timestamp` field is not modelled). -/
structure BestPartialResult where
  confidence : ℚ
  reasoning : String
  results : List Doc
  attempt : Nat
  query : String
  deriving Repr, DecidableEq

/-- One entry of `attempt_history` (the `search_strategy` / `timestamp` /
`optimization_type` bookkeeping fields are not modelled). -/
structure AttemptRecord where
  attempt : Nat
  original_query : String
  optimized_query : String
  query_intent : String
  results_count : Nat
  deriving Repr, DecidableEq

/-- `EnhancedEvaluationRAGStateV2` from `state.py`.  Field
`hasUsablePartial` models `has_usable_partial` from the source. -/
structure RAGState where
  original_query : String
  current_query : String
  attempt_count : Nat
  attempt_history : List AttemptRecord
  search_results : List Doc
  model_confidence : ℚ
  all_results : List (List Doc)
  evaluation_log : List String
  final_answer : String
  should_continue : Bool
  escalate : Bool
  query_intent : String
  business_type : String
  requires_trade_secret_filter : Bool
  confidence_threshold_override : ℚ
  company_context_added : Bool
  best_partial_result : Option BestPartialResult
  best_partial_confidence : ℚ
  attempt_confidences : List ℚ
  hasUsablePartial : Bool
  use_augmentation : Bool
  augmentation_used : Bool
  augmentation_confidence : ℚ
  augmentation_reasoning : String
  deriving Repr, DecidableEq

/-- The initial state dict built by `EnhancedEvaluationRAGAgentV2.ask`. -/
def askInitialState (q : String) : RAGState where
  original_query := q
  current_query := ""
  attempt_count := 0
  attempt_history := []
  search_results := []
  model_confidence := 0
  all_results := []
  evaluation_log := []
  final_answer := ""
  should_continue := true
  escalate := false
  query_intent := "general"
  business_type := "none"
  requires_trade_secret_filter := false
  confidence_threshold_override := 7
  company_context_added := false
  best_partial_result := none
  best_partial_confidence := 0
  attempt_confidences := []
  hasUsablePartial := false
  use_augmentation := false
  augmentation_used := false
  augmentation_confidence := 0
  augmentation_reasoning := ""

/-- Node 1, `initialize_evaluation_v2` in `workflow_nodes.py`. -/
def init_evaluation_v2 (s : RAGState) : RAGState :=
  { s with
    current_query := s.original_query
    attempt_count := 0
    attempt_history := []
    all_results := []
    evaluation_log := ["Starting evaluation for: " ++ s.original_query]
    should_continue := true
    escalate := false
    query_intent := "general"
    business_type := "none"
    requires_trade_secret_filter := false
    confidence_threshold_override := 7
    company_context_added := false
    best_partial_result := none
    best_partial_confidence := 0
    attempt_confidences := []
    hasUsablePartial := false
    use_augmentation := false
    augmentation_used := false
    augmentation_confidence := 0
    augmentation_reasoning := "" }

/-- The state update returned by `analyze_query_intent`
(`intent_detection.py`).  The pattern/LLM classification logic itself is an
external concern; the claims below are conditioned on its output, so the
node is modelled by its returned update. -/
def applyClassification (intent btype : String) (filt : Bool) (thr : ℚ)
    (s : RAGState) : RAGState :=
  { s with
    query_intent := intent
    business_type := btype
    requires_trade_secret_filter := filt
    confidence_threshold_override := thr
    company_context_added := true }

/-- Session state right after `initialize_evaluation` and
`analyze_query_intent`, i.e. at the `business_or_trade_secrets` router. -/
def sessionStart (q intent btype : String) (filt : Bool) (thr : ℚ) : RAGState :=
  applyClassification intent btype filt thr (init_evaluation_v2 (askInitialState q))

/-- The partnership template from `handle_business_query`
(`business_handlers.py`). -/
def partnershipResponse : String :=
  "Bardzo dziękujemy za zainteresowanie współpracą z Aquaforest! 🤝\n\n**NAWIĄZANIE WSPÓŁPRACY**\nChętnie nawiążemy z Państwem współpracę biznesową.\n\n📋 **Formularz kontaktowy**: https://aquaforest.eu/pl/kontakt/\n\n📞 **Infolinia dla klientów biznesowych**: **(+48) 14 691 79 79**  \n⏰ **Godziny pracy**: poniedziałek-piątek, 8:00-16:00\n\n**Co oferujemy partnerom:**\n🌊 Szeroką gamę produktów Aquaforest (sole, probiotyki, suplementy, akwaria OceanGuard)\n🎓 Wsparcie techniczne i szkolenia  \n📈 Materiały marketingowe i wsparcie sprzedażowe\n💼 Konkurencyjne warunki współpracy\n\nJeśli masz pytania o dystrybucję naszych produktów, nasi specjaliści są gotowi zapewnić Ci pełne wsparcie i odpowiedzieć na wszystkie pytania biznesowe.\n\n**Czekamy na Twój telefon!** 🌊"

/-- The technical-support template from `handle_business_query`. -/
def supportResponse : String :=
  "Dziękujemy za kontakt z Aquaforest! 🛠️\n\n**WSPARCIE TECHNICZNE**\nNasi eksperci są gotowi pomóc w rozwiązaniu problemów technicznych.\n\n📞 **Pomoc techniczna**: **(+48) 14 691 79 79**  \n⏰ **Godziny pracy**: poniedziałek-piątek, 8:00-16:00\n\n📧 **Kontakt**: https://aquaforest.eu/pl/kontakt/\n\n**Czym możemy pomóc:**\n🔬 Doradztwo techniczne dotyczące produktów\n📊 Interpretacja wyników testów ICP\n🌊 Optymalizacja parametrów akwarium\n🐠 Rozwiązywanie problemów z hodowlą\n\n**Przygotuj do rozmowy:**\n- Model i pojemność akwarium\n- Aktualne parametry wody\n- Stosowane produkty Aquaforest\n- Opis problemu\n\nNasi specjaliści odpowiedzą na wszystkie pytania techniczne! 🌊"

/-- The trade-secret refusal template from `check_trade_secrets`. -/
def tradeSecretResponse : String :=
  "Dziękuję za pytanie o procesy produkcyjne Aquaforest! 🔒\n\n**Informacje o produkcji to tajemnica handlowa firmy** - nie mogę ujawnić szczegółów dotyczących receptur, sposobów wytwarzania czy dokładnych składników.\n\n**Co mogę powiedzieć:**\n✅ Aquaforest produkuje w Polsce (Brzesko) od 1995 roku  \n✅ Posiadamy własne laboratorium badawcze i hodowlę koralowców\n✅ Produkty testowane w realnych warunkach hodowlanych\n✅ Stosujemy surowce najwyższej czystości  \n✅ Rygorystyczna kontrola jakości każdej partii\n✅ Produkcja w małych partiach dla zapewnienia powtarzalności\n\n**Wyróżniki naszej produkcji:**\n🧪 **Metoda probiotyczna™** - zastosowanie korzystnych bakterii\n🌊 **Hybrydowe sole** - naturalno-syntetyczne z witaminami\n🔬 **Testowanie w hodowli** - każdy preparat sprawdzany na żywych organizmach\n\n📞 **Kontakt techniczny**: (+48) 14 691 79 79 (pon-pt, 8:00-16:00)\n🌐 **Więcej o firmie**: https://aquaforest.eu/pl/kontakt/"

/-- The dosage fallback template from `generate_dosage_fallback`
(`workflow_nodes.py`). -/
def dosageFallbackResponse : String :=
  "Nie znalazłem szczegółowych informacji o dawkowaniu w bazie wiedzy Aquaforest.\n\n📦 **Instrukcje dawkowania znajdują się na opakowaniu produktu**\n- Zawsze sprawdź etykietę przed użyciem\n- Rozpocznij od najmniejszej zalecanej dawki  \n- Obserwuj reakcję akwarium i dostosuj dawkę\n\n💡 **Ogólne zasady Aquaforest:**\n- Dawki na etykiecie są bezpieczne dla standardowych akwariów\n- W przypadku wątpliwości skonsultuj z doświadczonym akwarystą\n- Regularnie testuj parametry wody po dodaniu preparatu\n\n📞 **Pomoc techniczna**: (+48) 14 691 79 79 (pon-pt, 8:00-16:00)\n\n🌐 **Więcej informacji**: https://aquaforest.eu/pl/kontakt/"

/-- The escalation template rendered by `generate_evaluation_answer` when
`escalate` is set (its f-string interpolates the original query). -/
def escalationResponse (q : String) : String :=
  "Przepraszam, ale nie znalazłem wystarczających informacji w bazie wiedzy Aquaforest aby odpowiedzieć na Twoje pytanie: \"" ++ q ++ "\"\n\n📞 **Skontaktuj się bezpośrednio z naszymi ekspertami:**\n- **Telefon**: (+48) 14 691 79 79 (pon-pt, 8:00-16:00)\n- **Website**: https://aquaforest.eu/pl/kontakt/\n\n🧠 **Nasi specjaliści pomogą Ci z:**\n- Szczegółowym doradztwem technicznym\n- Interpretacją wyników testów  \n- Optymalizacją parametrów akwarium\n- Rozwiązywaniem problemów hodowlanych\n\n**Przygotuj do rozmowy:**\n- Model i pojemność akwarium\n- Aktualne parametry wody  \n- Stosowane produkty Aquaforest\n- Opis problemu lub pytania\n\nCzekamy na Twój telefon! 🌊"

/-- The contact footer appended by `generate_evaluation_answer` when the
generated answer lacks a contact reference. -/
def expertContactFooter : String :=
  "\n\n📞 **Dodatkowa pomoc ekspertów Aquaforest:**\n- Telefon: (+48) 14 691 79 79 (pon-pt, 8:00-16:00)\n- Website: https://aquaforest.eu/pl/kontakt/"

/-- `handle_business_query` from `business_handlers.py`. -/
def handle_business_query (s : RAGState) : RAGState :=
  if s.business_type = "partnership" then
    { s with final_answer := partnershipResponse, should_continue := false,
             model_confidence := 10 }
  else if s.business_type = "technical_support" then
    { s with final_answer := supportResponse, should_continue := false,
             model_confidence := 9 }
  else s

/-- `check_trade_secrets` from `business_handlers.py`. -/
def check_trade_secrets (s : RAGState) : RAGState :=
  if s.requires_trade_secret_filter then
    { s with final_answer := tradeSecretResponse, should_continue := false,
             model_confidence := 9 }
  else s

/-- `contact_keywords` of safety check 2 in `passes_safety_checks`. -/
def contact_keywords : List String :=
  ["kontakt", "ekspert", "691 79 79", "aquaforest.eu", "telefon"]

/-- `foundation_keywords` of safety check 3 in `passes_safety_checks`. -/
def foundation_keywords : List String :=
  ["na podstawie", "dostępnych informacji", "z bazy", "aquaforest"]

/-- Model of `str.lower()` (ASCII case folding, applied per character). -/
def pyLower (s : String) : String :=
  String.mk (s.data.map Char.toLower)

/-- Safety check 2: `any(keyword in augmented_response.lower() for keyword in
contact_keywords)`. -/
def hasContactRef (augmented_response : String) : Bool :=
  contact_keywords.any (fun k => strContains (pyLower augmented_response) k)

/-- Safety check 3: `any(keyword in augmented_response.lower() for keyword in
foundation_keywords)`. -/
def hasFoundationRef (augmented_response : String) : Bool :=
  foundation_keywords.any (fun k => strContains (pyLower augmented_response) k)

/-- `augmented_response.count('\n')`. -/
def countNewlines (s : String) : Nat :=
  s.data.count '\n'

/-- `passes_safety_checks` from `workflow_nodes.py`: four sequential gates
(length bounds, expert-contact reference, grounding/foundation reference,
structural segmentation).  The `original_content` argument is accepted but
unused, as in the source. -/
def passes_safety_checks (augmented_response original_content : String) : Bool :=
  if augmented_response.length < 150 ∨ 2500 < augmented_response.length then false
  else if ¬ hasContactRef augmented_response then false
  else if ¬ hasFoundationRef augmented_response then false
  else if augmented_response.data.count '\n' < 3 then false
  else true

/-- `generate_dosage_fallback` from `workflow_nodes.py`. -/
def generate_dosage_fallback (state : RAGState) (evaluation_entry : String) : RAGState :=
  { state with
    final_answer := dosageFallbackResponse
    should_continue := false
    model_confidence := 7
    evaluation_log := state.evaluation_log ++ [evaluation_entry ++ " | Dosage fallback used"] }

/-- `check_augmentation_eligibility` from `workflow_nodes.py`: decides GPT
augmentation versus standard escalation once the attempts are exhausted.
(The source reads `best_partial_result['attempt']` for a log string in the
eligible branch, where the partial is known to exist; the model defaults the
index to 0 when absent.) -/
def check_augmentation_eligibility (state : RAGState) (current_confidence : ℚ)
    (evaluation_entry : String) (attempt_confidences : List ℚ) : RAGState :=
  let has_partialFlag := state.hasUsablePartial
  let best_confidence := state.best_partial_confidence
  let query_intent := state.query_intent
  let protected_intents : List String := ["business", "dosage", "production"]
  if has_partialFlag = true ∧ 5 ≤ best_confidence ∧ query_intent ∉ protected_intents then
    { state with
      should_continue := false
      escalate := false
      use_augmentation := true
      model_confidence := current_confidence
      attempt_confidences := attempt_confidences
      augmentation_reasoning :=
        "Using partial result from attempt " ++
          toString ((state.best_partial_result.map (fun p => p.attempt)).getD 0) ++
          " with confidence " ++ toString best_confidence ++ "/10"
      evaluation_log := state.evaluation_log ++
        [evaluation_entry ++ " | Max attempts reached - triggering GPT augmentation"] }
  else
    let reason :=
      if has_partialFlag = false then "no usable partial"
      else "protected intent: " ++ query_intent
    { state with
      model_confidence := current_confidence
      should_continue := false
      escalate := true
      attempt_confidences := attempt_confidences
      evaluation_log := state.evaluation_log ++
        [evaluation_entry ++ " | Max attempts reached - escalating (" ++ reason ++ ")"] }

/-- The best-partial memoization block at the top of
`enhanced_evaluate_content_quality_v2` (`TRACK BEST PARTIAL RESULT (5.0+)`):
store the current attempt as the new best partial exactly when its
confidence is at least 5.0 and strictly exceeds the current best. -/
def trackBestPartial (confidence : ℚ) (reasoning : String) (state : RAGState) :
    RAGState :=
  if 5 ≤ confidence ∧ state.best_partial_confidence < confidence then
    { state with
      best_partial_result := some
        { confidence := confidence, reasoning := reasoning,
          results := state.search_results, attempt := state.attempt_count,
          query := state.current_query }
      best_partial_confidence := confidence
      hasUsablePartial := true }
  else state

/-- Node 3, `enhanced_evaluate_content_quality_v2` from `workflow_nodes.py`:
scores the current results (one oracle call, modelled by `scorerReply`),
memoizes the best partial (floor 5.0, strict improvement), then branches:
dosage fallback / accept / exhaustion check / continue. -/
def enhanced_evaluate_content_quality_v2 (scorerReply : Except String String)
    (state : RAGState) : RAGState :=
  let attempt := state.attempt_count
  let cr := evaluate_content_quality scorerReply state.original_query state.search_results
  let confidence := cr.1
  let reasoning := cr.2
  let state := trackBestPartial confidence reasoning state
  let attempt_confidences := state.attempt_confidences ++ [confidence]
  let confidence_threshold := state.confidence_threshold_override
  let evaluation_entry :=
    "Model evaluation: " ++ toString confidence ++ "/10 - " ++ reasoning.take 50 ++ "..."
  if state.query_intent = "dosage" ∧ confidence < confidence_threshold ∧
      MAX_REASONING_ATTEMPTS ≤ attempt then
    generate_dosage_fallback state evaluation_entry
  else if confidence_threshold ≤ confidence then
    { state with
      model_confidence := confidence
      should_continue := false
      attempt_confidences := attempt_confidences
      evaluation_log := state.evaluation_log ++ [evaluation_entry] }
  else if MAX_REASONING_ATTEMPTS ≤ attempt then
    check_augmentation_eligibility state confidence evaluation_entry attempt_confidences
  else
    { state with
      model_confidence := confidence
      should_continue := true
      attempt_confidences := attempt_confidences
      evaluation_log := state.evaluation_log ++
        [evaluation_entry ++ " | Insufficient quality, continuing"] }

/-- `execute_search_attempt` from `workflow_nodes.py`: the query optimizer
and retrieval service are external oracles, modelled by the
`optimized_query` and `search_results` arguments; the node increments the
attempt counter and records the attempt. -/
def execute_search_attempt (optimized_query : String) (search_results : List Doc)
    (state : RAGState) : RAGState :=
  let attempt := state.attempt_count + 1
  { state with
    attempt_count := attempt
    current_query := optimized_query
    search_results := search_results
    attempt_history := state.attempt_history ++
      [{ attempt := attempt, original_query := state.original_query,
         optimized_query := optimized_query, query_intent := state.query_intent,
         results_count := search_results.length }]
    all_results := state.all_results ++ [search_results]
    evaluation_log := state.evaluation_log ++
      ["Enhanced Attempt " ++ toString attempt ++ ": optimized query " ++ optimized_query] }

/-- The `partial_content` context string built by `gpt_augmentation_mode`
from the best partial result set (first three documents); it feeds the
oracle prompt and the unused second argument of `passes_safety_checks`.
The running source index of each block is not modelled. -/
def build_partial_content (results : List Doc) : String :=
  String.join ((results.take 3).map (fun r =>
    "--- ZRODLO ---\nTytul: " ++ r.title ++ "\nTyp: " ++ r.content_type ++
      "\nTresc: " ++ r.full_content.take 400 ++ "...\n\n"))

/-- The `partial_content` string that `gpt_augmentation_mode` builds from the
state it receives (the best partial result set; the node is only reached
when one exists, the model defaults to an empty set when absent). -/
def augPartialContent (state : RAGState) : String :=
  build_partial_content
    ((state.best_partial_result.map (fun p => p.results)).getD [])

/-- `gpt_augmentation_mode` from `workflow_nodes.py`.  `genOracle` models the
generation call inside the `try` block (`.error` = raised exception, caught
by the node); `evalOracle` models the oracle used by the second-pass
evaluation (which never raises past `evaluate_augmented_response`). -/
def gpt_augmentation_mode (genOracle evalOracle : Except String String)
    (state : RAGState) : RAGState :=
  let partialContent := augPartialContent state
  match genOracle with
  | .error e =>
    { state with
      escalate := true
      should_continue := false
      augmentation_used := false
      augmentation_reasoning := "Augmentation error: " ++ e
      evaluation_log := state.evaluation_log ++ ["GPT augmentation error: " ++ e] }
  | .ok resp =>
    let augmented_answer := pyStrip resp
    let ev := evaluate_augmented_response evalOracle augmented_answer
      state.original_query partialContent
    let second_confidence := ev.1
    let second_reasoning := ev.2
    let safety_passed := passes_safety_checks augmented_answer partialContent
    if 7 ≤ second_confidence ∧ safety_passed = true then
      { state with
        final_answer := augmented_answer
        model_confidence := second_confidence
        augmentation_used := true
        augmentation_confidence := second_confidence
        should_continue := false
        escalate := false
        evaluation_log := state.evaluation_log ++
          ["GPT augmentation successful: " ++ toString second_confidence ++ "/10 | " ++
            second_reasoning.take 50 ++ "..."] }
    else
      let reason :=
        if second_confidence < 7 then
          "Low confidence: " ++ toString second_confidence ++ "/10"
        else "Safety check failed"
      { state with
        escalate := true
        should_continue := false
        augmentation_used := false
        augmentation_reasoning := "Augmentation failed: " ++ reason
        evaluation_log := state.evaluation_log ++
          ["GPT augmentation failed: " ++ reason ++ " | " ++
            second_reasoning.take 50 ++ "..."] }

/-- Node 4, `generate_evaluation_answer` from `workflow_nodes.py`: renders
the escalation template when `escalate` is set; otherwise invokes the
generation oracle (`genOracle`; `.error` = raised exception, caught) and
appends the expert-contact footer when the generated answer has no contact
reference. -/
def generate_evaluation_answer (genOracle : Except String String)
    (state : RAGState) : RAGState :=
  if state.escalate = true then
    { state with
      final_answer := escalationResponse state.original_query
      should_continue := false }
  else
    match genOracle with
    | .ok resp =>
      let fa := pyStrip resp
      let final_answer :=
        if strContains fa "691 79 79" = false ∧ strContains fa "aquaforest.eu" = false then
          fa ++ expertContactFooter
        else fa
      { state with final_answer := final_answer, should_continue := false }
    | .error e =>
      { state with
        final_answer := "Błąd generowania odpowiedzi: " ++ e ++
          ". Skontaktuj się z ekspertami: (+48) 14 691 79 79"
        should_continue := false
        escalate := true }

/-- The conditional router `business_or_trade_secrets` from `workflow.py`. -/
def business_or_trade_secrets (state : RAGState) : String :=
  if state.business_type ∈ (["partnership", "technical_support"] : List String) then
    "handle_business_query"
  else if state.requires_trade_secret_filter = true then "check_trade_secrets"
  else "execute_search_attempt"

/-- The conditional router `continue_augment_or_finish` from `workflow.py`. -/
def continue_augment_or_finish (state : RAGState) : String :=
  if state.should_continue = true then "execute_search_attempt"
  else if state.use_augmentation = true then "gpt_augmentation_mode"
  else "generate_evaluation_answer"

/-- The per-attempt oracle bundle consumed by one loop iteration: the
optimizer output, the retrieval output and the adequacy-scorer reply. -/
structure AttemptInput where
  optimized_query : String
  results : List Doc
  scorerReply : Except String String

/-- One iteration of the attempt loop: `execute_search_attempt` followed by
`enhanced_evaluate_content_quality` (the edge added in `workflow.py`). -/
def loopStep (inp : AttemptInput) (s : RAGState) : RAGState :=
  enhanced_evaluate_content_quality_v2 inp.scorerReply
    (execute_search_attempt inp.optimized_query inp.results s)

/-- The retrieve-evaluate loop of the compiled graph: iterate `loopStep`
while the router `continue_augment_or_finish` selects
`execute_search_attempt` (i.e. while `should_continue` holds), consuming the
oracle bundle for the current attempt index; `fuel` bounds the recursion and
never binds in a session (three iterations always reach a terminal). -/
def loopRun (ora : Nat → AttemptInput) : Nat → RAGState → RAGState
  | 0, s => s
  | fuel + 1, s =>
    let s' := loopStep (ora s.attempt_count) s
    if s'.should_continue = true then loopRun ora fuel s' else s'

/-- The adequacy confidence that attempt input `inp` produces for original
query `q` (what `enhanced_evaluate_content_quality_v2` computes right after
the search node stored `inp`). -/
def attemptConfidence (inp : AttemptInput) (q : String) : ℚ :=
  (evaluate_content_quality inp.scorerReply q inp.results).1

/-- The confidences observed in the first `k` attempts of a session with
original query `q` and oracle `ora`. -/
def observedConfidences (ora : Nat → AttemptInput) (q : String) (k : Nat) : List ℚ :=
  (List.range k).map (fun i => attemptConfidence (ora i) q)

/-- The compiled graph of `create_enhanced_evaluation_workflow_v2` from the
classification router onwards: the two short-circuit paths go straight to
END, everything else runs the attempt loop and then either the augmentation
node or the answer synthesizer.  The second component counts invocations of
`execute_search_attempt` (each is one retrieval-service call batch); both
short-circuit paths perform zero. -/
def runFromClassified (ora : Nat → AttemptInput)
    (augGen augEval genOracle : Except String String) (s : RAGState) :
    RAGState × Nat :=
  if s.business_type ∈ (["partnership", "technical_support"] : List String) then
    (handle_business_query s, 0)
  else if s.requires_trade_secret_filter = true then
    (check_trade_secrets s, 0)
  else
    let f := loopRun ora MAX_REASONING_ATTEMPTS s
    if f.should_continue = true then (f, f.attempt_count)
    else if f.use_augmentation = true then
      (gpt_augmentation_mode augGen augEval f, f.attempt_count)
    else (generate_evaluation_answer genOracle f, f.attempt_count)

/-! ### Projection lemmas for the state-threading nodes -/

/-- The confidence that `enhanced_evaluate_content_quality_v2` computes on a
given state (what `components.evaluate_content_quality` returns there). -/
def nodeConfidence (reply : Except String String) (s : RAGState) : ℚ :=
  (evaluate_content_quality reply s.original_query s.search_results).1

theorem trackBestPartial_proj (c : ℚ) (r : String) (s : RAGState) :
    (trackBestPartial c r s).attempt_count = s.attempt_count ∧
    (trackBestPartial c r s).query_intent = s.query_intent ∧
    (trackBestPartial c r s).original_query = s.original_query ∧
    (trackBestPartial c r s).confidence_threshold_override =
      s.confidence_threshold_override ∧
    (trackBestPartial c r s).should_continue = s.should_continue ∧
    (trackBestPartial c r s).escalate = s.escalate ∧
    (trackBestPartial c r s).use_augmentation = s.use_augmentation ∧
    (trackBestPartial c r s).search_results = s.search_results ∧
    (trackBestPartial c r s).attempt_confidences = s.attempt_confidences ∧
    (trackBestPartial c r s).augmentation_used = s.augmentation_used ∧
    (trackBestPartial c r s).final_answer = s.final_answer ∧
    (trackBestPartial c r s).model_confidence = s.model_confidence := by
  unfold trackBestPartial
  split_ifs <;> simp

theorem trackBestPartial_best (c : ℚ) (r : String) (s : RAGState) :
    (trackBestPartial c r s).best_partial_confidence =
      (if 5 ≤ c ∧ s.best_partial_confidence < c then c
        else s.best_partial_confidence) := by
  unfold trackBestPartial
  split_ifs <;> rfl

theorem trackBestPartial_usable (c : ℚ) (r : String) (s : RAGState) :
    (trackBestPartial c r s).hasUsablePartial =
      (if 5 ≤ c ∧ s.best_partial_confidence < c then true
        else s.hasUsablePartial) := by
  unfold trackBestPartial
  split_ifs <;> rfl

theorem execute_search_attempt_proj (oq : String) (res : List Doc) (s : RAGState) :
    (execute_search_attempt oq res s).attempt_count = s.attempt_count + 1 ∧
    (execute_search_attempt oq res s).search_results = res ∧
    (execute_search_attempt oq res s).query_intent = s.query_intent ∧
    (execute_search_attempt oq res s).original_query = s.original_query ∧
    (execute_search_attempt oq res s).confidence_threshold_override =
      s.confidence_threshold_override ∧
    (execute_search_attempt oq res s).should_continue = s.should_continue ∧
    (execute_search_attempt oq res s).escalate = s.escalate ∧
    (execute_search_attempt oq res s).use_augmentation = s.use_augmentation ∧
    (execute_search_attempt oq res s).best_partial_confidence =
      s.best_partial_confidence ∧
    (execute_search_attempt oq res s).hasUsablePartial = s.hasUsablePartial ∧
    (execute_search_attempt oq res s).final_answer = s.final_answer ∧
    (execute_search_attempt oq res s).model_confidence = s.model_confidence := by
  unfold execute_search_attempt
  simp

theorem check_augmentation_eligibility_spec (s : RAGState) (c : ℚ) (e : String)
    (confs : List ℚ) :
    (check_augmentation_eligibility s c e confs).should_continue = false ∧
    (check_augmentation_eligibility s c e confs).attempt_count = s.attempt_count ∧
    (check_augmentation_eligibility s c e confs).query_intent = s.query_intent ∧
    (check_augmentation_eligibility s c e confs).hasUsablePartial =
      s.hasUsablePartial ∧
    (check_augmentation_eligibility s c e confs).best_partial_confidence =
      s.best_partial_confidence ∧
    (if s.hasUsablePartial = true ∧ 5 ≤ s.best_partial_confidence ∧
        s.query_intent ∉ (["business", "dosage", "production"] : List String) then
      (check_augmentation_eligibility s c e confs).use_augmentation = true ∧
      (check_augmentation_eligibility s c e confs).escalate = false
    else
      (check_augmentation_eligibility s c e confs).use_augmentation =
        s.use_augmentation ∧
      (check_augmentation_eligibility s c e confs).escalate = true) := by
  simp only [check_augmentation_eligibility]
  split_ifs <;> simp_all

theorem generate_dosage_fallback_spec (s : RAGState) (e : String) :
    (generate_dosage_fallback s e).final_answer = dosageFallbackResponse ∧
    (generate_dosage_fallback s e).should_continue = false ∧
    (generate_dosage_fallback s e).model_confidence = 7 ∧
    (generate_dosage_fallback s e).escalate = s.escalate ∧
    (generate_dosage_fallback s e).use_augmentation = s.use_augmentation ∧
    (generate_dosage_fallback s e).attempt_count = s.attempt_count ∧
    (generate_dosage_fallback s e).query_intent = s.query_intent ∧
    (generate_dosage_fallback s e).hasUsablePartial = s.hasUsablePartial ∧
    (generate_dosage_fallback s e).best_partial_confidence =
      s.best_partial_confidence := by
  unfold generate_dosage_fallback
  simp

theorem trackBestPartial_attempt_count (c : ℚ) (r : String) (s : RAGState) :
    (trackBestPartial c r s).attempt_count = s.attempt_count :=
  (trackBestPartial_proj c r s).1

theorem trackBestPartial_query_intent (c : ℚ) (r : String) (s : RAGState) :
    (trackBestPartial c r s).query_intent = s.query_intent :=
  (trackBestPartial_proj c r s).2.1

theorem trackBestPartial_thr (c : ℚ) (r : String) (s : RAGState) :
    (trackBestPartial c r s).confidence_threshold_override =
      s.confidence_threshold_override :=
  (trackBestPartial_proj c r s).2.2.2.1

theorem trackBestPartial_escalate (c : ℚ) (r : String) (s : RAGState) :
    (trackBestPartial c r s).escalate = s.escalate :=
  (trackBestPartial_proj c r s).2.2.2.2.2.1

theorem trackBestPartial_use_augmentation (c : ℚ) (r : String) (s : RAGState) :
    (trackBestPartial c r s).use_augmentation = s.use_augmentation :=
  (trackBestPartial_proj c r s).2.2.2.2.2.2.1

theorem cae_best (s : RAGState) (c : ℚ) (e : String) (confs : List ℚ) :
    (check_augmentation_eligibility s c e confs).best_partial_confidence =
      s.best_partial_confidence :=
  (check_augmentation_eligibility_spec s c e confs).2.2.2.2.1

theorem cae_usable (s : RAGState) (c : ℚ) (e : String) (confs : List ℚ) :
    (check_augmentation_eligibility s c e confs).hasUsablePartial =
      s.hasUsablePartial :=
  (check_augmentation_eligibility_spec s c e confs).2.2.2.1

theorem eval_proj (reply : Except String String) (s : RAGState) :
    (enhanced_evaluate_content_quality_v2 reply s).attempt_count = s.attempt_count ∧
    (enhanced_evaluate_content_quality_v2 reply s).query_intent = s.query_intent ∧
    (enhanced_evaluate_content_quality_v2 reply s).original_query = s.original_query ∧
    (enhanced_evaluate_content_quality_v2 reply s).confidence_threshold_override =
      s.confidence_threshold_override := by
  simp only [enhanced_evaluate_content_quality_v2]
  split_ifs <;>
    simp_all [generate_dosage_fallback, check_augmentation_eligibility,
      trackBestPartial_proj, trackBestPartial] <;>
    split_ifs <;> simp_all

theorem eval_best (reply : Except String String) (s : RAGState) :
    (enhanced_evaluate_content_quality_v2 reply s).best_partial_confidence =
      (if 5 ≤ nodeConfidence reply s ∧
          s.best_partial_confidence < nodeConfidence reply s then
        nodeConfidence reply s else s.best_partial_confidence) := by
  have h0 : (enhanced_evaluate_content_quality_v2 reply s).best_partial_confidence =
      (trackBestPartial
        (evaluate_content_quality reply s.original_query s.search_results).1
        (evaluate_content_quality reply s.original_query s.search_results).2
        s).best_partial_confidence := by
    simp only [enhanced_evaluate_content_quality_v2]
    split_ifs <;>
      simp [generate_dosage_fallback_spec, cae_best]
  rw [h0, trackBestPartial_best]
  rfl

theorem eval_usable (reply : Except String String) (s : RAGState) :
    (enhanced_evaluate_content_quality_v2 reply s).hasUsablePartial =
      (if 5 ≤ nodeConfidence reply s ∧
          s.best_partial_confidence < nodeConfidence reply s then
        true else s.hasUsablePartial) := by
  have h0 : (enhanced_evaluate_content_quality_v2 reply s).hasUsablePartial =
      (trackBestPartial
        (evaluate_content_quality reply s.original_query s.search_results).1
        (evaluate_content_quality reply s.original_query s.search_results).2
        s).hasUsablePartial := by
    simp only [enhanced_evaluate_content_quality_v2]
    split_ifs <;>
      simp [generate_dosage_fallback_spec, cae_usable]
  rw [h0, trackBestPartial_usable]
  rfl

theorem gdf_should_continue (s : RAGState) (e : String) :
    (generate_dosage_fallback s e).should_continue = false :=
  (generate_dosage_fallback_spec s e).2.1

theorem cae_should_continue (s : RAGState) (c : ℚ) (e : String) (confs : List ℚ) :
    (check_augmentation_eligibility s c e confs).should_continue = false :=
  (check_augmentation_eligibility_spec s c e confs).1

theorem eval_sc_iff (reply : Except String String) (s : RAGState) :
    (enhanced_evaluate_content_quality_v2 reply s).should_continue = true ↔
      (nodeConfidence reply s < s.confidence_threshold_override ∧
        s.attempt_count < MAX_REASONING_ATTEMPTS) := by
  simp only [enhanced_evaluate_content_quality_v2, nodeConfidence,
    trackBestPartial_query_intent, trackBestPartial_thr,
    trackBestPartial_attempt_count]
  split_ifs with h1 h2 h3
  · rw [gdf_should_continue]
    exact iff_of_false (by simp) (fun h => absurd h.2 (not_lt.mpr h1.2.2))
  · exact iff_of_false (by simp) (fun h => absurd h.1 (not_lt.mpr h2))
  · rw [cae_should_continue]
    exact iff_of_false (by simp) (fun h => absurd h.2 (not_lt.mpr h3))
  · exact iff_of_true (by simp) ⟨not_le.mp h2, not_le.mp h3⟩

theorem eval_dosage_escalate (reply : Except String String) (s : RAGState)
    (hd : s.query_intent = "dosage") :
    (enhanced_evaluate_content_quality_v2 reply s).escalate = s.escalate := by
  simp only [enhanced_evaluate_content_quality_v2, nodeConfidence,
    trackBestPartial_query_intent, trackBestPartial_thr,
    trackBestPartial_attempt_count]
  split_ifs with h1 h2 h3
  · rw [(generate_dosage_fallback_spec _ _).2.2.2.1, trackBestPartial_escalate]
  · show (trackBestPartial _ _ s).escalate = s.escalate
    exact trackBestPartial_escalate _ _ s
  · exact absurd ⟨hd, not_le.mp h2, h3⟩ h1
  · show (trackBestPartial _ _ s).escalate = s.escalate
    exact trackBestPartial_escalate _ _ s

theorem eval_aug (reply : Except String String) (s : RAGState)
    (h0 : s.use_augmentation = false)
    (h : (enhanced_evaluate_content_quality_v2 reply s).use_augmentation = true) :
    MAX_REASONING_ATTEMPTS ≤ s.attempt_count ∧
    nodeConfidence reply s < s.confidence_threshold_override ∧
    (enhanced_evaluate_content_quality_v2 reply s).hasUsablePartial = true ∧
    5 ≤ (enhanced_evaluate_content_quality_v2 reply s).best_partial_confidence ∧
    s.query_intent ∉ (["business", "dosage", "production"] : List String) := by
  simp only [enhanced_evaluate_content_quality_v2, nodeConfidence,
    trackBestPartial_query_intent, trackBestPartial_thr,
    trackBestPartial_attempt_count] at h ⊢
  split_ifs at h ⊢ with h1 h2 h3
  · rw [(generate_dosage_fallback_spec _ _).2.2.2.2.1,
      trackBestPartial_use_augmentation, h0] at h
    exact absurd h (by simp)
  · simp [trackBestPartial_use_augmentation, h0] at h
  · by_cases helig :
      (trackBestPartial
        (evaluate_content_quality reply s.original_query s.search_results).1
        (evaluate_content_quality reply s.original_query s.search_results).2
        s).hasUsablePartial = true ∧
      5 ≤ (trackBestPartial
        (evaluate_content_quality reply s.original_query s.search_results).1
        (evaluate_content_quality reply s.original_query s.search_results).2
        s).best_partial_confidence ∧
      (trackBestPartial
        (evaluate_content_quality reply s.original_query s.search_results).1
        (evaluate_content_quality reply s.original_query s.search_results).2
        s).query_intent ∉ (["business", "dosage", "production"] : List String)
    · refine ⟨h3, not_le.mp h2, ?_, ?_, ?_⟩
      · rw [cae_usable]
        exact helig.1
      · rw [cae_best]
        exact helig.2.1
      · rw [trackBestPartial_query_intent] at helig
        exact helig.2.2
    · have hs := check_augmentation_eligibility_spec
        (trackBestPartial
          (evaluate_content_quality reply s.original_query s.search_results).1
          (evaluate_content_quality reply s.original_query s.search_results).2
          s)
        (evaluate_content_quality reply s.original_query s.search_results).1
        ("Model evaluation: " ++
          toString (evaluate_content_quality reply s.original_query s.search_results).1
          ++ "/10 - " ++
          (evaluate_content_quality reply s.original_query s.search_results).2.take 50
          ++ "...")
        ((trackBestPartial
          (evaluate_content_quality reply s.original_query s.search_results).1
          (evaluate_content_quality reply s.original_query s.search_results).2
          s).attempt_confidences ++
          [(evaluate_content_quality reply s.original_query s.search_results).1])
      rw [if_neg helig] at hs
      rw [hs.2.2.2.2.2.1, trackBestPartial_use_augmentation, h0] at h
      exact absurd h (by simp)
  · simp [trackBestPartial_use_augmentation, h0] at h

theorem eval_dosage_fallback (reply : Except String String) (s : RAGState)
    (hd : s.query_intent = "dosage")
    (hc : nodeConfidence reply s < s.confidence_threshold_override)
    (ha : MAX_REASONING_ATTEMPTS ≤ s.attempt_count) :
    (enhanced_evaluate_content_quality_v2 reply s).final_answer =
      dosageFallbackResponse ∧
    (enhanced_evaluate_content_quality_v2 reply s).model_confidence = 7 ∧
    (enhanced_evaluate_content_quality_v2 reply s).should_continue = false ∧
    (enhanced_evaluate_content_quality_v2 reply s).escalate = s.escalate := by
  simp only [nodeConfidence] at hc
  simp only [enhanced_evaluate_content_quality_v2, nodeConfidence,
    trackBestPartial_query_intent, trackBestPartial_thr,
    trackBestPartial_attempt_count]
  split_ifs with h1 h2 h3
  · exact ⟨(generate_dosage_fallback_spec _ _).1,
      (generate_dosage_fallback_spec _ _).2.2.1,
      (generate_dosage_fallback_spec _ _).2.1,
      by rw [(generate_dosage_fallback_spec _ _).2.2.2.1, trackBestPartial_escalate]⟩
  · exact absurd ⟨hd, hc, ha⟩ h1
  · exact absurd ⟨hd, hc, ha⟩ h1

theorem esa_search_results (oq : String) (res : List Doc) (s : RAGState) :
    (execute_search_attempt oq res s).search_results = res :=
  (execute_search_attempt_proj oq res s).2.1

theorem esa_original_query (oq : String) (res : List Doc) (s : RAGState) :
    (execute_search_attempt oq res s).original_query = s.original_query :=
  (execute_search_attempt_proj oq res s).2.2.2.1

theorem esa_best (oq : String) (res : List Doc) (s : RAGState) :
    (execute_search_attempt oq res s).best_partial_confidence =
      s.best_partial_confidence :=
  (execute_search_attempt_proj oq res s).2.2.2.2.2.2.2.2.1

theorem esa_usable (oq : String) (res : List Doc) (s : RAGState) :
    (execute_search_attempt oq res s).hasUsablePartial = s.hasUsablePartial :=
  (execute_search_attempt_proj oq res s).2.2.2.2.2.2.2.2.2.1

theorem loopStep_attempt_count (inp : AttemptInput) (s : RAGState) :
    (loopStep inp s).attempt_count = s.attempt_count + 1 := by
  unfold loopStep
  rw [(eval_proj _ _).1, (execute_search_attempt_proj _ _ _).1]

theorem loopStep_query_intent (inp : AttemptInput) (s : RAGState) :
    (loopStep inp s).query_intent = s.query_intent := by
  unfold loopStep
  rw [(eval_proj _ _).2.1, (execute_search_attempt_proj _ _ _).2.2.1]

theorem loopStep_original_query (inp : AttemptInput) (s : RAGState) :
    (loopStep inp s).original_query = s.original_query := by
  unfold loopStep
  rw [(eval_proj _ _).2.2.1, esa_original_query]

theorem loopStep_thr (inp : AttemptInput) (s : RAGState) :
    (loopStep inp s).confidence_threshold_override =
      s.confidence_threshold_override := by
  unfold loopStep
  rw [(eval_proj _ _).2.2.2, (execute_search_attempt_proj _ _ _).2.2.2.2.1]

theorem nodeConfidence_esa (inp : AttemptInput) (s : RAGState) :
    nodeConfidence inp.scorerReply
        (execute_search_attempt inp.optimized_query inp.results s) =
      attemptConfidence inp s.original_query := by
  unfold nodeConfidence attemptConfidence
  rw [esa_original_query, esa_search_results]

theorem loopStep_sc_iff (inp : AttemptInput) (s : RAGState) :
    (loopStep inp s).should_continue = true ↔
      (attemptConfidence inp s.original_query < s.confidence_threshold_override ∧
        s.attempt_count + 1 < MAX_REASONING_ATTEMPTS) := by
  unfold loopStep
  rw [eval_sc_iff, nodeConfidence_esa,
    (execute_search_attempt_proj _ _ _).2.2.2.2.1,
    (execute_search_attempt_proj _ _ _).1]

theorem loopStep_best (inp : AttemptInput) (s : RAGState) :
    (loopStep inp s).best_partial_confidence =
      (if 5 ≤ attemptConfidence inp s.original_query ∧
          s.best_partial_confidence < attemptConfidence inp s.original_query then
        attemptConfidence inp s.original_query
      else s.best_partial_confidence) := by
  unfold loopStep
  rw [eval_best, nodeConfidence_esa, esa_best]

theorem loopStep_usable (inp : AttemptInput) (s : RAGState) :
    (loopStep inp s).hasUsablePartial =
      (if 5 ≤ attemptConfidence inp s.original_query ∧
          s.best_partial_confidence < attemptConfidence inp s.original_query then
        true
      else s.hasUsablePartial) := by
  unfold loopStep
  rw [eval_usable, nodeConfidence_esa, esa_best, esa_usable]

theorem loopStep_dosage_escalate (inp : AttemptInput) (s : RAGState)
    (hd : s.query_intent = "dosage") :
    (loopStep inp s).escalate = s.escalate := by
  unfold loopStep
  rw [eval_dosage_escalate, (execute_search_attempt_proj _ _ _).2.2.2.2.2.2.1]
  rw [(execute_search_attempt_proj _ _ _).2.2.1]
  exact hd

theorem loopStep_dosage_fallback (inp : AttemptInput) (s : RAGState)
    (hd : s.query_intent = "dosage")
    (hc : attemptConfidence inp s.original_query < s.confidence_threshold_override)
    (ha : MAX_REASONING_ATTEMPTS ≤ s.attempt_count + 1) :
    (loopStep inp s).final_answer = dosageFallbackResponse ∧
    (loopStep inp s).model_confidence = 7 ∧
    (loopStep inp s).should_continue = false ∧
    (loopStep inp s).escalate = s.escalate := by
  unfold loopStep
  have h1 := eval_dosage_fallback inp.scorerReply
    (execute_search_attempt inp.optimized_query inp.results s)
    (by rw [(execute_search_attempt_proj _ _ _).2.2.1]; exact hd)
    (by rw [nodeConfidence_esa, (execute_search_attempt_proj _ _ _).2.2.2.2.1]; exact hc)
    (by rw [(execute_search_attempt_proj _ _ _).1]; exact ha)
  refine ⟨h1.1, h1.2.1, h1.2.2.1, ?_⟩
  rw [h1.2.2.2, (execute_search_attempt_proj _ _ _).2.2.2.2.2.2.1]

theorem loopStep_aug (inp : AttemptInput) (s : RAGState)
    (h0 : s.use_augmentation = false)
    (h : (loopStep inp s).use_augmentation = true) :
    MAX_REASONING_ATTEMPTS ≤ s.attempt_count + 1 ∧
    attemptConfidence inp s.original_query < s.confidence_threshold_override ∧
    (loopStep inp s).hasUsablePartial = true ∧
    5 ≤ (loopStep inp s).best_partial_confidence ∧
    s.query_intent ∉ (["business", "dosage", "production"] : List String) := by
  unfold loopStep at h ⊢
  have h2 := eval_aug inp.scorerReply
    (execute_search_attempt inp.optimized_query inp.results s)
    (by rw [(execute_search_attempt_proj _ _ _).2.2.2.2.2.2.2.1]; exact h0) h
  refine ⟨?_, ?_, h2.2.2.1, h2.2.2.2.1, ?_⟩
  · rw [(execute_search_attempt_proj _ _ _).1] at h2
    exact h2.1
  · rw [nodeConfidence_esa, (execute_search_attempt_proj _ _ _).2.2.2.2.1] at h2
    exact h2.2.1
  · rw [(execute_search_attempt_proj _ _ _).2.2.1] at h2
    exact h2.2.2.2.2

theorem loopStep_protected_noaug (inp : AttemptInput) (s : RAGState)
    (hp : s.query_intent ∈ (["business", "dosage", "production"] : List String))
    (h0 : s.use_augmentation = false) :
    (loopStep inp s).use_augmentation = false := by
  cases hb : (loopStep inp s).use_augmentation with
  | false => rfl
  | true => exact absurd hp (loopStep_aug inp s h0 hb).2.2.2.2

theorem loopRun_succ (ora : Nat → AttemptInput) (n : Nat) (s : RAGState) :
    loopRun ora (n + 1) s =
      (if (loopStep (ora s.attempt_count) s).should_continue = true then
        loopRun ora n (loopStep (ora s.attempt_count) s)
      else loopStep (ora s.attempt_count) s) := rfl

theorem sessionStart_spec (q intent btype : String) (filt : Bool) (thr : ℚ) :
    (sessionStart q intent btype filt thr).attempt_count = 0 ∧
    (sessionStart q intent btype filt thr).query_intent = intent ∧
    (sessionStart q intent btype filt thr).original_query = q ∧
    (sessionStart q intent btype filt thr).confidence_threshold_override = thr ∧
    (sessionStart q intent btype filt thr).escalate = false ∧
    (sessionStart q intent btype filt thr).use_augmentation = false ∧
    (sessionStart q intent btype filt thr).hasUsablePartial = false ∧
    (sessionStart q intent btype filt thr).best_partial_confidence = 0 ∧
    (sessionStart q intent btype filt thr).business_type = btype ∧
    (sessionStart q intent btype filt thr).requires_trade_secret_filter = filt ∧
    (sessionStart q intent btype filt thr).should_continue = true :=
  ⟨rfl, rfl, rfl, rfl, rfl, rfl, rfl, rfl, rfl, rfl, rfl⟩

theorem loopStep_sc_false_of_big (inp : AttemptInput) (s : RAGState)
    (h : 2 ≤ s.attempt_count) :
    (loopStep inp s).should_continue = false := by
  cases hb : (loopStep inp s).should_continue with
  | false => rfl
  | true =>
    have h2 := (loopStep_sc_iff inp s).mp hb
    simp only [MAX_REASONING_ATTEMPTS] at h2
    omega

theorem loopRun3_terminal (ora : Nat → AttemptInput) (s : RAGState)
    (h : s.attempt_count = 0) :
    (loopRun ora 3 s).should_continue = false ∧
    (loopRun ora 3 s).attempt_count ≤ 3 := by
  rw [loopRun_succ]
  have hc1 : (loopStep (ora s.attempt_count) s).attempt_count = 1 := by
    rw [loopStep_attempt_count, h]
  cases hb1 : (loopStep (ora s.attempt_count) s).should_continue with
  | false => rw [if_neg (by simp)]; exact ⟨hb1, by omega⟩
  | true =>
    rw [if_pos rfl, loopRun_succ]
    set s1 := loopStep (ora s.attempt_count) s with hs1
    have hc2 : (loopStep (ora s1.attempt_count) s1).attempt_count = 2 := by
      rw [loopStep_attempt_count, hc1]
    cases hb2 : (loopStep (ora s1.attempt_count) s1).should_continue with
    | false => rw [if_neg (by simp [hb2])]; exact ⟨hb2, by omega⟩
    | true =>
      rw [if_pos rfl, loopRun_succ]
      set s2 := loopStep (ora s1.attempt_count) s1 with hs2
      have hb3 : (loopStep (ora s2.attempt_count) s2).should_continue = false :=
        loopStep_sc_false_of_big _ _ (by omega)
      rw [if_neg (by simp [hb3])]
      constructor
      · exact hb3
      · rw [loopStep_attempt_count, hc2]

theorem loopRun_dosage_escalate (ora : Nat → AttemptInput) (n : Nat) (s : RAGState)
    (hd : s.query_intent = "dosage") :
    (loopRun ora n s).escalate = s.escalate := by
  induction n generalizing s with
  | zero => rfl
  | succ n ih =>
    rw [loopRun_succ]
    cases hb : (loopStep (ora s.attempt_count) s).should_continue with
    | false =>
      rw [if_neg (by simp [hb])]
      exact loopStep_dosage_escalate _ _ hd
    | true =>
      rw [if_pos rfl, ih _ (by rw [loopStep_query_intent]; exact hd)]
      exact loopStep_dosage_escalate _ _ hd

theorem loopRun_query_intent (ora : Nat → AttemptInput) (n : Nat) (s : RAGState) :
    (loopRun ora n s).query_intent = s.query_intent := by
  induction n generalizing s with
  | zero => rfl
  | succ n ih =>
    rw [loopRun_succ]
    cases hb : (loopStep (ora s.attempt_count) s).should_continue with
    | false => rw [if_neg (by simp [hb])]; exact loopStep_query_intent _ _
    | true => rw [if_pos rfl, ih, loopStep_query_intent]

theorem loopRun_protected_noaug (ora : Nat → AttemptInput) (n : Nat) (s : RAGState)
    (hp : s.query_intent ∈ (["business", "dosage", "production"] : List String))
    (h0 : s.use_augmentation = false) :
    (loopRun ora n s).use_augmentation = false := by
  induction n generalizing s with
  | zero => exact h0
  | succ n ih =>
    rw [loopRun_succ]
    cases hb : (loopStep (ora s.attempt_count) s).should_continue with
    | false =>
      rw [if_neg (by simp [hb])]
      exact loopStep_protected_noaug _ _ hp h0
    | true =>
      rw [if_pos rfl]
      exact ih _ (by rw [loopStep_query_intent]; exact hp)
        (loopStep_protected_noaug _ _ hp h0)

theorem foldl_max_le_mem (l : List ℚ) (a c : ℚ) (h : c ∈ l) :
    c ≤ l.foldl max a := by
  induction l generalizing a with
  | nil => cases h
  | cons x xs ih =>
    rcases List.mem_cons.mp h with h | h
    · subst h
      have h2 : ∀ (ys : List ℚ) (b : ℚ), b ≤ ys.foldl max b := by
        intro ys
        induction ys with
        | nil => intro b; simp
        | cons y ys ihy =>
          intro b
          exact le_trans (le_max_left b y) (ihy (max b y))
      exact le_trans (le_max_right a c) (h2 xs (max a c))
    · exact ih _ h

theorem foldl_max_append_one (l : List ℚ) (a c : ℚ) :
    (l ++ [c]).foldl max a = max (l.foldl max a) c := by
  rw [List.foldl_append]
  rfl

theorem observedConfidences_succ (ora : Nat → AttemptInput) (q : String) (k : Nat) :
    observedConfidences ora q (k + 1) =
      observedConfidences ora q k ++ [attemptConfidence (ora k) q] := by
  unfold observedConfidences
  rw [List.range_succ, List.map_append]
  rfl

/-- The best-partial bookkeeping invariant maintained by the attempt loop:
the original query is fixed; while no usable partial exists the best
confidence is still 0 and the maximum confidence observed so far is below
the 5.0 usability floor; once a usable partial exists, its confidence is at
least 5.0, is one of the observed confidences, and equals their maximum. -/
def bestInv (ora : Nat → AttemptInput) (q : String) (s : RAGState) : Prop :=
  s.original_query = q ∧
  (s.hasUsablePartial = true →
    5 ≤ s.best_partial_confidence ∧
    s.best_partial_confidence ∈ observedConfidences ora q s.attempt_count ∧
    s.best_partial_confidence =
      (observedConfidences ora q s.attempt_count).foldl max 0) ∧
  (s.hasUsablePartial = false →
    s.best_partial_confidence = 0 ∧
    (observedConfidences ora q s.attempt_count).foldl max 0 < 5)

theorem bestInv_step (ora : Nat → AttemptInput) (q : String) (s : RAGState)
    (h : bestInv ora q s) :
    bestInv ora q (loopStep (ora s.attempt_count) s) := by
  obtain ⟨hq, hyes, hno⟩ := h
  have hcount : (loopStep (ora s.attempt_count) s).attempt_count =
      s.attempt_count + 1 := loopStep_attempt_count _ _
  have hobs := observedConfidences_succ ora q s.attempt_count
  have hfold := foldl_max_append_one (observedConfidences ora q s.attempt_count)
    0 (attemptConfidence (ora s.attempt_count) q)
  have hbest := loopStep_best (ora s.attempt_count) s
  have husable := loopStep_usable (ora s.attempt_count) s
  rw [hq] at hbest husable
  refine ⟨by rw [loopStep_original_query]; exact hq, ?_, ?_⟩
  · intro hu
    rw [husable] at hu
    rw [hcount, hobs]
    split_ifs at hbest hu with hup
    · refine ⟨hbest ▸ hup.1, ?_, ?_⟩
      · rw [hbest]
        exact List.mem_append_right _ (by simp)
      · rw [hbest, hfold]
        rcases Bool.eq_false_or_eq_true s.hasUsablePartial with hu1 | hu0
        · obtain ⟨h5, hmem, hmax⟩ := hyes hu1
          rw [← hmax]
          exact (max_eq_right (le_of_lt (hmax ▸ hup.2))).symm
        · obtain ⟨hb0, hlt⟩ := hno hu0
          rw [hb0] at hup
          exact (max_eq_right (le_of_lt (lt_of_lt_of_le hlt hup.1))).symm
    · obtain ⟨h5, hmem, hmax⟩ := hyes hu
      have hle : attemptConfidence (ora s.attempt_count) q ≤
          s.best_partial_confidence := by
        by_contra hgt
        push_neg at hgt
        rcases le_or_lt 5 (attemptConfidence (ora s.attempt_count) q) with h5c | h5c
        · exact hup ⟨h5c, hgt⟩
        · linarith
      refine ⟨hbest ▸ h5, ?_, ?_⟩
      · rw [hbest]
        exact List.mem_append_left _ hmem
      · rw [hbest, hfold, ← hmax]
        exact (max_eq_left hle).symm
  · intro hu
    rw [husable] at hu
    rw [hcount, hobs, hfold]
    split_ifs at hbest hu with hup
    obtain ⟨hb0, hlt⟩ := hno hu
    have hc5 : attemptConfidence (ora s.attempt_count) q < 5 := by
      by_contra hge
      push_neg at hge
      have hnlt : ¬ s.best_partial_confidence <
          attemptConfidence (ora s.attempt_count) q := fun hlt2 => hup ⟨hge, hlt2⟩
      rw [hb0] at hnlt
      push_neg at hnlt
      linarith
    exact ⟨hbest ▸ hb0, max_lt hlt hc5⟩

theorem bestInv_run (ora : Nat → AttemptInput) (q : String) (n : Nat) (s : RAGState)
    (h : bestInv ora q s) :
    bestInv ora q (loopRun ora n s) := by
  induction n generalizing s with
  | zero => exact h
  | succ n ih =>
    rw [loopRun_succ]
    cases hb : (loopStep (ora s.attempt_count) s).should_continue with
    | false =>
      rw [if_neg (by simp [hb])]
      exact bestInv_step ora q s h
    | true =>
      rw [if_pos rfl]
      exact ih _ (bestInv_step ora q s h)

theorem bestInv_sessionStart (ora : Nat → AttemptInput) (q intent btype : String)
    (filt : Bool) (thr : ℚ) :
    bestInv ora q (sessionStart q intent btype filt thr) := by
  refine ⟨rfl, ?_, ?_⟩
  · intro hu
    cases hu
  · intro hu
    refine ⟨rfl, ?_⟩
    show (observedConfidences ora q 0).foldl max 0 < 5
    simp [observedConfidences]

theorem dosage_run3 (ora : Nat → AttemptInput) (s : RAGState)
    (h : s.attempt_count = 0) (hd : s.query_intent = "dosage")
    (hesc : s.escalate = false)
    (h0 : attemptConfidence (ora 0) s.original_query <
      s.confidence_threshold_override)
    (h1 : attemptConfidence (ora 1) s.original_query <
      s.confidence_threshold_override)
    (h2 : attemptConfidence (ora 2) s.original_query <
      s.confidence_threshold_override) :
    (loopRun ora 3 s).final_answer = dosageFallbackResponse ∧
    (loopRun ora 3 s).model_confidence = 7 ∧
    (loopRun ora 3 s).escalate = false ∧
    (loopRun ora 3 s).should_continue = false := by
  rw [loopRun_succ, h]
  set s1 := loopStep (ora 0) s with hs1
  have hc1 : s1.attempt_count = 1 := by rw [hs1, loopStep_attempt_count, h]
  have hq1 : s1.original_query = s.original_query := loopStep_original_query _ _
  have hthr1 : s1.confidence_threshold_override =
      s.confidence_threshold_override := loopStep_thr _ _
  have hd1 : s1.query_intent = "dosage" := by
    rw [hs1, loopStep_query_intent]
    exact hd
  have hsc1 : s1.should_continue = true :=
    (loopStep_sc_iff (ora 0) s).mpr ⟨h0, by rw [h]; decide⟩
  rw [if_pos hsc1, loopRun_succ, hc1]
  set s2 := loopStep (ora 1) s1 with hs2
  have hc2 : s2.attempt_count = 2 := by rw [hs2, loopStep_attempt_count, hc1]
  have hq2 : s2.original_query = s.original_query := by
    rw [hs2, loopStep_original_query, hq1]
  have hthr2 : s2.confidence_threshold_override =
      s.confidence_threshold_override := by
    rw [hs2, loopStep_thr, hthr1]
  have hd2 : s2.query_intent = "dosage" := by
    rw [hs2, loopStep_query_intent]
    exact hd1
  have hsc2 : s2.should_continue = true :=
    (loopStep_sc_iff (ora 1) s1).mpr
      ⟨by rw [hq1, hthr1]; exact h1, by rw [hc1]; decide⟩
  rw [if_pos hsc2, loopRun_succ, hc2]
  have hfb := loopStep_dosage_fallback (ora 2) s2 hd2
    (by rw [hq2, hthr2]; exact h2) (by rw [hc2]; decide)
  rw [if_neg (by simp [hfb.2.2.1])]
  refine ⟨hfb.1, hfb.2.1, ?_, hfb.2.2.1⟩
  rw [hfb.2.2.2, hs2, loopStep_dosage_escalate _ _ hd1,
    hs1, loopStep_dosage_escalate _ _ hd]
  exact hesc

theorem charsContains_iff (n : List Char) (l : List Char) :
    charsContains n l = true ↔ n <:+: l := by
  induction l with
  | nil =>
    unfold charsContains
    rw [List.infix_nil]
    simp [List.isEmpty_iff]
  | cons c rest ih =>
    unfold charsContains
    rw [List.infix_cons_iff, Bool.or_eq_true, ih, List.isPrefixOf_iff_prefix]

theorem strContains_of_super (hay sub1 sub2 : String)
    (hpre : sub1.data <+: sub2.data) (h : strContains hay sub2 = true) :
    strContains hay sub1 = true := by
  unfold strContains at h ⊢
  rw [charsContains_iff] at h ⊢
  exact hpre.isInfix.trans h

theorem findConfidence_bounds (l : List Char) (v : ℚ)
    (h : findConfidence l = some v) : 1 ≤ v ∧ v ≤ 9 := by
  induction l with
  | nil => cases h
  | cons c rest ih =>
    unfold findConfidence at h
    cases hca : confDigitAt (c :: rest) with
    | none =>
      rw [hca] at h
      exact ih h
    | some w =>
      rw [hca] at h
      cases h
      unfold confDigitAt at hca
      split_ifs at hca with hp
      · rcases hm : (((c :: rest).drop ("CONFIDENCE:".data.length)).dropWhile
          isPySpace) with _ | ⟨d, tl⟩
        · rw [hm] at hca
          cases hca
        · rw [hm] at hca
          dsimp only at hca
          split_ifs at hca with hdig
          · cases hca
            have h1n : '1'.toNat = 49 := rfl
            have h9n : '9'.toNat = 57 := rfl
            have h0n : '0'.toNat = 48 := rfl
            rw [h1n, h9n] at hdig
            rw [h0n]
            constructor
            · exact_mod_cast (by omega : 1 ≤ d.toNat - 48)
            · exact_mod_cast (by omega : d.toNat - 48 ≤ 9)

theorem extractConfidence_bounds (t : String) (d : ℚ)
    (hd0 : 0 ≤ d) (hd10 : d ≤ 10) :
    0 ≤ extractConfidence t d ∧ extractConfidence t d ≤ 10 := by
  unfold extractConfidence
  cases hf : findConfidence t.data with
  | none => exact ⟨hd0, hd10⟩
  | some v =>
    have hb := findConfidence_bounds _ _ hf
    rw [Option.getD_some]
    exact ⟨by linarith [hb.1], by linarith [hb.2]⟩

theorem append_ne_empty_left (a b : String) (ha : a ≠ "") : a ++ b ≠ "" := by
  intro h
  apply ha
  have hl := congrArg String.length h
  rw [String.length_append] at hl
  have ha0 : a.length = 0 := by
    have : (("" : String)).length = 0 := rfl
    omega
  cases a with
  | mk data =>
    cases data with
    | nil => rfl
    | cons c cs => simp [String.length] at ha0

theorem passes_safety_checks_iff (a oc : String) :
    passes_safety_checks a oc = true ↔
      (150 ≤ a.length ∧ a.length ≤ 2500 ∧ hasContactRef a = true ∧
        hasFoundationRef a = true ∧ 3 ≤ a.data.count '\n') := by
  constructor
  · intro h
    unfold passes_safety_checks at h
    split_ifs at h with h1 h2 h3 h4
    all_goals try simp at h
    push_neg at h1
    exact ⟨h1.1, h1.2, h2, h3, by omega⟩
  · intro h
    obtain ⟨hl1, hl2, hc, hf, hn⟩ := h
    unfold passes_safety_checks
    rw [if_neg (by omega), if_neg (by simp [hc]), if_neg (by simp [hf]),
      if_neg (by omega)]

theorem gpt_aug_error_spec (e : String) (evalO : Except String String)
    (s : RAGState) :
    (gpt_augmentation_mode (.error e) evalO s).escalate = true ∧
    (gpt_augmentation_mode (.error e) evalO s).should_continue = false ∧
    (gpt_augmentation_mode (.error e) evalO s).augmentation_used = false ∧
    (gpt_augmentation_mode (.error e) evalO s).augmentation_reasoning =
      "Augmentation error: " ++ e :=
  ⟨rfl, rfl, rfl, rfl⟩

theorem gpt_aug_ok_iff (resp : String) (evalO : Except String String)
    (s : RAGState) :
    ((gpt_augmentation_mode (.ok resp) evalO s).augmentation_used = true ∧
      (gpt_augmentation_mode (.ok resp) evalO s).escalate = false ∧
      (gpt_augmentation_mode (.ok resp) evalO s).final_answer = (pyStrip resp)) ↔
      (7 ≤ (evaluate_augmented_response evalO (pyStrip resp) s.original_query
          (augPartialContent s)).1 ∧
        passes_safety_checks (pyStrip resp) (augPartialContent s) = true) := by
  simp only [gpt_augmentation_mode]
  by_cases h : 7 ≤ (evaluate_augmented_response evalO (pyStrip resp) s.original_query
      (augPartialContent s)).1 ∧
    passes_safety_checks (pyStrip resp) (augPartialContent s) = true
  · rw [if_pos h]
    exact iff_of_true ⟨rfl, rfl, rfl⟩ h
  · rw [if_neg h]
    refine iff_of_false (fun hx => by simpa using hx.1) h

theorem gpt_aug_ok_fail (resp : String) (evalO : Except String String)
    (s : RAGState)
    (hfail : ¬(7 ≤ (evaluate_augmented_response evalO (pyStrip resp) s.original_query
        (augPartialContent s)).1 ∧
      passes_safety_checks (pyStrip resp) (augPartialContent s) = true)) :
    (gpt_augmentation_mode (.ok resp) evalO s).escalate = true ∧
    (gpt_augmentation_mode (.ok resp) evalO s).should_continue = false ∧
    (gpt_augmentation_mode (.ok resp) evalO s).augmentation_used = false := by
  simp only [gpt_augmentation_mode]
  rw [if_neg hfail]
  exact ⟨rfl, rfl, rfl⟩

/-! ### Claim theorems -/

/-- A fixture document for witnesses. -/
def wDoc : Doc where
  pinecone_score := 1/2
  title := "AF Reef Salt"
  full_content := "Sol morska Reef Salt do akwarium rafowego."
  content_type := "article"
  url := "https://aquaforest.eu/pl/reef-salt"
  domain := "aquaforest.eu"
  category := "seawater"

/-- A fixture oracle for witnesses: attempt `i` scores confidence `i + 3`
(3, 4, 5 over the three attempts). -/
def wOra : Nat → AttemptInput := fun i =>
  { optimized_query := "af query"
    results := [wDoc]
    scorerReply := .ok ("CONFIDENCE: " ++ toString (i + 3) ++ "\nREASONING: r") }

/-- Claim C1: for every session entering the attempt loop, the evaluation
step sets `should_continue` only while `attempt_count < 3`
(`MAX_REASONING_ATTEMPTS`), and running the loop from a fresh session state
reaches a terminal state (`should_continue = false`) within 3 iterations
with `attempt_count ≤ 3` — no infinite retry. -/
theorem claim_C1_loop_bounded (ora : Nat → AttemptInput)
    (reply : Except String String) (s : RAGState)
    (q intent btype : String) (filt : Bool) (thr : ℚ) :
    ((enhanced_evaluate_content_quality_v2 reply s).should_continue = true →
      s.attempt_count < MAX_REASONING_ATTEMPTS) ∧
    (loopRun ora MAX_REASONING_ATTEMPTS
      (sessionStart q intent btype filt thr)).should_continue = false ∧
    (loopRun ora MAX_REASONING_ATTEMPTS
      (sessionStart q intent btype filt thr)).attempt_count ≤
      MAX_REASONING_ATTEMPTS := by
  refine ⟨fun h => ((eval_sc_iff reply s).mp h).2, ?_, ?_⟩
  · exact (loopRun3_terminal ora _ rfl).1
  · exact (loopRun3_terminal ora _ rfl).2

theorem claim_C1_witness :
    (loopRun wOra MAX_REASONING_ATTEMPTS
      (sessionStart "jak dawkowac AF Build" "general" "none" false 7)).should_continue
        = false ∧
    (loopRun wOra MAX_REASONING_ATTEMPTS
      (sessionStart "jak dawkowac AF Build" "general" "none" false 7)).attempt_count
        ≤ MAX_REASONING_ATTEMPTS :=
  ⟨(claim_C1_loop_bounded wOra (.ok "x") (askInitialState "x")
      "jak dawkowac AF Build" "general" "none" false 7).2.1,
    (claim_C1_loop_bounded wOra (.ok "x") (askInitialState "x")
      "jak dawkowac AF Build" "general" "none" false 7).2.2⟩

/-- Claim C2: the search node never touches the best partial; the evaluation
node updates it exactly when the fresh confidence is at least 5.0 and
strictly exceeds the current best (hence the best is monotone); and at the
end of any session in which a usable partial was recorded, the retained
best-partial confidence is at least 5.0, is one of the confidences observed
across the attempts, and equals their maximum. -/
theorem claim_C2_best_partial_monotone_max (ora : Nat → AttemptInput)
    (q intent btype : String) (filt : Bool) (thr : ℚ) (fuel : Nat)
    (reply : Except String String) (s : RAGState) (oq : String)
    (res : List Doc) :
    (execute_search_attempt oq res s).best_partial_confidence =
      s.best_partial_confidence ∧
    (enhanced_evaluate_content_quality_v2 reply s).best_partial_confidence =
      (if 5 ≤ nodeConfidence reply s ∧
          s.best_partial_confidence < nodeConfidence reply s then
        nodeConfidence reply s else s.best_partial_confidence) ∧
    s.best_partial_confidence ≤
      (enhanced_evaluate_content_quality_v2 reply s).best_partial_confidence ∧
    ((loopRun ora fuel (sessionStart q intent btype filt thr)).hasUsablePartial
        = true →
      5 ≤ (loopRun ora fuel
        (sessionStart q intent btype filt thr)).best_partial_confidence ∧
      (loopRun ora fuel
        (sessionStart q intent btype filt thr)).best_partial_confidence ∈
        observedConfidences ora q (loopRun ora fuel
          (sessionStart q intent btype filt thr)).attempt_count ∧
      (loopRun ora fuel
        (sessionStart q intent btype filt thr)).best_partial_confidence =
        (observedConfidences ora q (loopRun ora fuel
          (sessionStart q intent btype filt thr)).attempt_count).foldl max 0 ∧
      ∀ cobs ∈ observedConfidences ora q (loopRun ora fuel
          (sessionStart q intent btype filt thr)).attempt_count,
        cobs ≤ (loopRun ora fuel
          (sessionStart q intent btype filt thr)).best_partial_confidence) := by
  refine ⟨esa_best oq res s, eval_best reply s, ?_, ?_⟩
  · rw [eval_best]
    split_ifs with h
    · exact le_of_lt h.2
    · exact le_rfl
  · intro hu
    have hinv := bestInv_run ora q fuel _
      (bestInv_sessionStart ora q intent btype filt thr)
    obtain ⟨h5, hmem, hmax⟩ := hinv.2.1 hu
    refine ⟨h5, hmem, hmax, fun cobs hc => ?_⟩
    rw [hmax]
    exact foldl_max_le_mem _ _ _ hc

theorem claim_C2_witness :
    (loopRun wOra 3 (sessionStart "test" "general" "none" false 7)).hasUsablePartial
        = true ∧
    5 ≤ (loopRun wOra 3
      (sessionStart "test" "general" "none" false 7)).best_partial_confidence ∧
    (loopRun wOra 3
      (sessionStart "test" "general" "none" false 7)).best_partial_confidence =
      (observedConfidences wOra "test" (loopRun wOra 3
        (sessionStart "test" "general" "none" false 7)).attempt_count).foldl max 0 :=
  ⟨by decide,
    ((claim_C2_best_partial_monotone_max wOra "test" "general" "none" false 7 3
      (.ok "x") (askInitialState "x") "oq" []).2.2.2 (by decide)).1,
    ((claim_C2_best_partial_monotone_max wOra "test" "general" "none" false 7 3
      (.ok "x") (askInitialState "x") "oq" []).2.2.2 (by decide)).2.2.1⟩

/-- Claim C3: a dosage-intent session whose confidence stays below the
threshold on all three attempts terminates in the dosage fallback — the
fixed templated answer with `model_confidence` exactly 7.0 and
`escalate = false`; moreover the attempt-evaluation loop never sets
`escalate` for a dosage session (the generic escalated exhaustion path is
unreachable for dosage). -/
theorem claim_C3_dosage_fallback (ora : Nat → AttemptInput)
    (q btype : String) (thr : ℚ) (n : Nat)
    (h0 : attemptConfidence (ora 0) q < thr)
    (h1 : attemptConfidence (ora 1) q < thr)
    (h2 : attemptConfidence (ora 2) q < thr) :
    (loopRun ora MAX_REASONING_ATTEMPTS
      (sessionStart q "dosage" btype false thr)).final_answer =
      dosageFallbackResponse ∧
    (loopRun ora MAX_REASONING_ATTEMPTS
      (sessionStart q "dosage" btype false thr)).model_confidence = 7 ∧
    (loopRun ora MAX_REASONING_ATTEMPTS
      (sessionStart q "dosage" btype false thr)).escalate = false ∧
    (loopRun ora MAX_REASONING_ATTEMPTS
      (sessionStart q "dosage" btype false thr)).should_continue = false ∧
    (loopRun ora n (sessionStart q "dosage" btype false thr)).escalate = false := by
  have hrun := dosage_run3 ora (sessionStart q "dosage" btype false thr)
    rfl rfl rfl h0 h1 h2
  refine ⟨hrun.1, hrun.2.1, hrun.2.2.1, hrun.2.2.2, ?_⟩
  rw [loopRun_dosage_escalate ora n _ rfl]
  rfl

theorem claim_C3_witness :
    attemptConfidence (wOra 0) "ile dawkowac" < 6 ∧
    attemptConfidence (wOra 1) "ile dawkowac" < 6 ∧
    attemptConfidence (wOra 2) "ile dawkowac" < 6 ∧
    (loopRun wOra MAX_REASONING_ATTEMPTS
      (sessionStart "ile dawkowac" "dosage" "none" false 6)).final_answer =
      dosageFallbackResponse ∧
    (loopRun wOra MAX_REASONING_ATTEMPTS
      (sessionStart "ile dawkowac" "dosage" "none" false 6)).model_confidence = 7 ∧
    (loopRun wOra MAX_REASONING_ATTEMPTS
      (sessionStart "ile dawkowac" "dosage" "none" false 6)).escalate = false :=
  ⟨by decide, by decide, by decide,
    (claim_C3_dosage_fallback wOra "ile dawkowac" "none" 6 3
      (by decide) (by decide) (by decide)).1,
    (claim_C3_dosage_fallback wOra "ile dawkowac" "none" 6 3
      (by decide) (by decide) (by decide)).2.1,
    (claim_C3_dosage_fallback wOra "ile dawkowac" "none" 6 3
      (by decide) (by decide) (by decide)).2.2.1⟩

/-- Claim C4: the exhaustion checker grants augmentation exactly when a
usable partial with confidence at least 5.0 exists and the intent is not
protected, and otherwise escalates directly; the evaluation node can set
`use_augmentation` only at exhaustion (`attempt_count ≥ 3`, confidence below
threshold) with a usable partial and an unprotected intent; and a session
classified with a protected intent (`business`, `dosage`, `production`)
never has `use_augmentation` set, however the loop runs. -/
theorem claim_C4_augmentation_guard (s : RAGState) (c : ℚ) (e : String)
    (confs : List ℚ) (reply : Except String String) (t : RAGState)
    (ora : Nat → AttemptInput) (n : Nat) (q btype intentp : String)
    (filt : Bool) (thr : ℚ)
    (ht : t.use_augmentation = false)
    (hp : intentp ∈ (["business", "dosage", "production"] : List String)) :
    (if s.hasUsablePartial = true ∧ 5 ≤ s.best_partial_confidence ∧
        s.query_intent ∉ (["business", "dosage", "production"] : List String) then
      (check_augmentation_eligibility s c e confs).use_augmentation = true ∧
      (check_augmentation_eligibility s c e confs).escalate = false
    else
      (check_augmentation_eligibility s c e confs).use_augmentation =
        s.use_augmentation ∧
      (check_augmentation_eligibility s c e confs).escalate = true) ∧
    ((enhanced_evaluate_content_quality_v2 reply t).use_augmentation = true →
      MAX_REASONING_ATTEMPTS ≤ t.attempt_count ∧
      nodeConfidence reply t < t.confidence_threshold_override ∧
      (enhanced_evaluate_content_quality_v2 reply t).hasUsablePartial = true ∧
      5 ≤ (enhanced_evaluate_content_quality_v2 reply t).best_partial_confidence ∧
      t.query_intent ∉ (["business", "dosage", "production"] : List String)) ∧
    (loopRun ora n (sessionStart q intentp btype filt thr)).use_augmentation
      = false := by
  refine ⟨(check_augmentation_eligibility_spec s c e confs).2.2.2.2.2,
    fun h => eval_aug reply t ht h, ?_⟩
  exact loopRun_protected_noaug ora n _ hp rfl

theorem claim_C4_witness :
    (askInitialState "x").use_augmentation = false ∧
    ("dosage" : String) ∈ (["business", "dosage", "production"] : List String) ∧
    (loopRun wOra 3
      (sessionStart "ile dawkowac" "dosage" "none" false 6)).use_augmentation
      = false :=
  ⟨by decide, by decide,
    (claim_C4_augmentation_guard (askInitialState "x") 0 "" [] (.ok "x")
      (askInitialState "x") wOra 3 "ile dawkowac" "none" "dosage" false 6
      (by decide) (by decide)).2.2⟩

/-- Claim C5: the augmented answer is promoted (`augmentation_used = true`,
`escalate = false`, the generated text becomes the final answer) exactly
when the second-pass confidence reaches 7.0 and the safety gate passes; the
safety gate is the conjunction of the four checks (length within 150-2500,
expert-contact reference, grounding/foundation reference, at least three
newline separators); any failure — including an exception from the
generation oracle, which the node catches rather than propagates — ends the
session with `escalate = true`, `augmentation_used = false` and a non-empty
reason string. -/
theorem claim_C5_augmentation_gate (genO evalO : Except String String)
    (s : RAGState) (e resp a oc : String) :
    ((gpt_augmentation_mode (.error e) evalO s).escalate = true ∧
      (gpt_augmentation_mode (.error e) evalO s).augmentation_used = false ∧
      (gpt_augmentation_mode (.error e) evalO s).augmentation_reasoning ≠ "") ∧
    (((gpt_augmentation_mode (.ok resp) evalO s).augmentation_used = true ∧
      (gpt_augmentation_mode (.ok resp) evalO s).escalate = false ∧
      (gpt_augmentation_mode (.ok resp) evalO s).final_answer = (pyStrip resp)) ↔
      (7 ≤ (evaluate_augmented_response evalO (pyStrip resp) s.original_query
          (augPartialContent s)).1 ∧
        passes_safety_checks (pyStrip resp) (augPartialContent s) = true)) ∧
    (¬(7 ≤ (evaluate_augmented_response evalO (pyStrip resp) s.original_query
          (augPartialContent s)).1 ∧
        passes_safety_checks (pyStrip resp) (augPartialContent s) = true) →
      (gpt_augmentation_mode (.ok resp) evalO s).escalate = true ∧
      (gpt_augmentation_mode (.ok resp) evalO s).augmentation_used = false ∧
      (gpt_augmentation_mode (.ok resp) evalO s).augmentation_reasoning ≠ "") ∧
    (passes_safety_checks a oc = true ↔
      (150 ≤ a.length ∧ a.length ≤ 2500 ∧ hasContactRef a = true ∧
        hasFoundationRef a = true ∧ 3 ≤ a.data.count '\n')) := by
  refine ⟨⟨(gpt_aug_error_spec e evalO s).1, (gpt_aug_error_spec e evalO s).2.2.1, ?_⟩,
    gpt_aug_ok_iff resp evalO s, fun hfail => ?_, passes_safety_checks_iff a oc⟩
  · rw [(gpt_aug_error_spec e evalO s).2.2.2]
    exact append_ne_empty_left _ _ (by decide)
  · refine ⟨(gpt_aug_ok_fail resp evalO s hfail).1,
      (gpt_aug_ok_fail resp evalO s hfail).2.2, ?_⟩
    have hreason : (gpt_augmentation_mode (.ok resp) evalO s).augmentation_reasoning =
        "Augmentation failed: " ++
          (if (evaluate_augmented_response evalO (pyStrip resp) s.original_query
              (augPartialContent s)).1 < 7 then
            "Low confidence: " ++
              toString (evaluate_augmented_response evalO (pyStrip resp) s.original_query
                (augPartialContent s)).1 ++ "/10"
          else "Safety check failed") := by
      simp only [gpt_augmentation_mode]
      rw [if_neg hfail]
    rw [hreason]
    exact append_ne_empty_left _ _ (by decide)

theorem claim_C5_witness :
    ¬(7 ≤ (evaluate_augmented_response (.ok "CONFIDENCE: 3\nREASONING: r")
        (pyStrip "ok") (askInitialState "x").original_query
        (augPartialContent (askInitialState "x"))).1 ∧
      passes_safety_checks (pyStrip "ok")
        (augPartialContent (askInitialState "x")) = true) ∧
    (gpt_augmentation_mode (.error "boom") (.ok "CONFIDENCE: 3\nREASONING: r")
      (askInitialState "x")).escalate = true ∧
    (gpt_augmentation_mode (.ok "ok") (.ok "CONFIDENCE: 3\nREASONING: r")
      (askInitialState "x")).escalate = true :=
  ⟨by decide,
    (claim_C5_augmentation_gate (.ok "ok") (.ok "CONFIDENCE: 3\nREASONING: r")
      (askInitialState "x") "boom" "ok" "a" "oc").1.1,
    ((claim_C5_augmentation_gate (.ok "ok") (.ok "CONFIDENCE: 3\nREASONING: r")
      (askInitialState "x") "boom" "ok" "a" "oc").2.2.1 (by decide)).1⟩

/-- Claim C6: sessions classified as business partnership or technical
support, and trade-secret-filtered sessions, are answered by the templated
short-circuit before the attempt loop: zero retrieval calls, the fixed
template as the final answer, and fixed confidences 10.0 / 9.0 / 9.0
respectively. -/
theorem claim_C6_short_circuits (ora : Nat → AttemptInput)
    (augG augE genO : Except String String)
    (q intent btype : String) (filt : Bool) (thr : ℚ) :
    (btype = "partnership" →
      (runFromClassified ora augG augE genO
        (sessionStart q intent btype filt thr)).2 = 0 ∧
      (runFromClassified ora augG augE genO
        (sessionStart q intent btype filt thr)).1.final_answer =
        partnershipResponse ∧
      (runFromClassified ora augG augE genO
        (sessionStart q intent btype filt thr)).1.model_confidence = 10) ∧
    (btype = "technical_support" →
      (runFromClassified ora augG augE genO
        (sessionStart q intent btype filt thr)).2 = 0 ∧
      (runFromClassified ora augG augE genO
        (sessionStart q intent btype filt thr)).1.final_answer =
        supportResponse ∧
      (runFromClassified ora augG augE genO
        (sessionStart q intent btype filt thr)).1.model_confidence = 9) ∧
    (btype ≠ "partnership" → btype ≠ "technical_support" → filt = true →
      (runFromClassified ora augG augE genO
        (sessionStart q intent btype filt thr)).2 = 0 ∧
      (runFromClassified ora augG augE genO
        (sessionStart q intent btype filt thr)).1.final_answer =
        tradeSecretResponse ∧
      (runFromClassified ora augG augE genO
        (sessionStart q intent btype filt thr)).1.model_confidence = 9) := by
  refine ⟨fun hb => ?_, fun hb => ?_, fun hb1 hb2 hf => ?_⟩
  · subst hb
    exact ⟨rfl, rfl, rfl⟩
  · subst hb
    exact ⟨rfl, rfl, rfl⟩
  · subst hf
    unfold runFromClassified
    rw [show (sessionStart q intent btype true thr).business_type = btype from rfl]
    rw [if_neg (by simp [hb1, hb2])]
    rw [show (sessionStart q intent btype true thr).requires_trade_secret_filter
      = true from rfl]
    rw [if_pos rfl]
    exact ⟨rfl, rfl, rfl⟩

theorem claim_C6_witness :
    (runFromClassified wOra (.ok "x") (.ok "x") (.ok "x")
      (sessionStart "wspolpraca" "business" "partnership" false 9)).2 = 0 ∧
    (runFromClassified wOra (.ok "x") (.ok "x") (.ok "x")
      (sessionStart "wspolpraca" "business" "partnership" false 9)).1.model_confidence
      = 10 ∧
    (runFromClassified wOra (.ok "x") (.ok "x") (.ok "x")
      (sessionStart "jak powstaje" "production" "none" true 5)).1.model_confidence
      = 9 :=
  ⟨((claim_C6_short_circuits wOra (.ok "x") (.ok "x") (.ok "x")
      "wspolpraca" "business" "partnership" false 9).1 rfl).1,
    ((claim_C6_short_circuits wOra (.ok "x") (.ok "x") (.ok "x")
      "wspolpraca" "business" "partnership" false 9).1 rfl).2.2,
    ((claim_C6_short_circuits wOra (.ok "x") (.ok "x") (.ok "x")
      "jak powstaje" "production" "none" true 5).2.2 (by decide) (by decide)
      rfl).2.2⟩

theorem runFromClassified_loop_route (ora : Nat → AttemptInput)
    (augG augE genO : Except String String) (q intent btype : String) (thr : ℚ)
    (hb1 : btype ≠ "partnership") (hb2 : btype ≠ "technical_support") :
    runFromClassified ora augG augE genO (sessionStart q intent btype false thr) =
      (if (loopRun ora MAX_REASONING_ATTEMPTS
          (sessionStart q intent btype false thr)).use_augmentation = true then
        (gpt_augmentation_mode augG augE (loopRun ora MAX_REASONING_ATTEMPTS
            (sessionStart q intent btype false thr)),
          (loopRun ora MAX_REASONING_ATTEMPTS
            (sessionStart q intent btype false thr)).attempt_count)
      else
        (generate_evaluation_answer genO (loopRun ora MAX_REASONING_ATTEMPTS
            (sessionStart q intent btype false thr)),
          (loopRun ora MAX_REASONING_ATTEMPTS
            (sessionStart q intent btype false thr)).attempt_count)) := by
  unfold runFromClassified
  rw [show (sessionStart q intent btype false thr).business_type = btype from rfl]
  rw [if_neg (by simp [hb1, hb2])]
  rw [show (sessionStart q intent btype false thr).requires_trade_secret_filter
    = false from rfl]
  rw [if_neg (by simp)]
  have hterm : (loopRun ora MAX_REASONING_ATTEMPTS
      (sessionStart q intent btype false thr)).should_continue = false :=
    (loopRun3_terminal ora (sessionStart q intent btype false thr) rfl).1
  rw [if_neg (by simp [hterm])]

/-- Claim C7 (amended): the final answer of a direct short-circuit
(business or trade-secret) or of the augmentation node is returned to the
caller unchanged — those graph paths go straight to END and the Answer
Synthesizer never runs on them; on a successful augmentation the final
answer is exactly the trimmed generated text.  A dosage-fallback session,
however, does NOT bypass the synthesizer: its loop exit has
`use_augmentation = false`, so the graph routes it into
`generate_evaluation_answer`, which regenerates the answer (see the
counterexample). -/
theorem claim_C7_passthrough_amended (ora : Nat → AttemptInput)
    (augG augE genO : Except String String) (q intent btype : String)
    (thr : ℚ) (resp : String)
    (hb1 : btype ≠ "partnership") (hb2 : btype ≠ "technical_support") :
    (runFromClassified ora augG augE genO
      (sessionStart q intent "partnership" false thr)).1 =
      handle_business_query (sessionStart q intent "partnership" false thr) ∧
    (runFromClassified ora augG augE genO
      (sessionStart q intent btype true thr)).1 =
      check_trade_secrets (sessionStart q intent btype true thr) ∧
    ((loopRun ora MAX_REASONING_ATTEMPTS
        (sessionStart q intent btype false thr)).use_augmentation = true →
      (runFromClassified ora augG augE genO
        (sessionStart q intent btype false thr)).1 =
        gpt_augmentation_mode augG augE (loopRun ora MAX_REASONING_ATTEMPTS
          (sessionStart q intent btype false thr))) ∧
    ((loopRun ora MAX_REASONING_ATTEMPTS
        (sessionStart q intent btype false thr)).use_augmentation = true →
      augG = .ok resp →
      7 ≤ (evaluate_augmented_response augE (pyStrip resp)
        (loopRun ora MAX_REASONING_ATTEMPTS
          (sessionStart q intent btype false thr)).original_query
        (augPartialContent (loopRun ora MAX_REASONING_ATTEMPTS
          (sessionStart q intent btype false thr)))).1 →
      passes_safety_checks (pyStrip resp)
        (augPartialContent (loopRun ora MAX_REASONING_ATTEMPTS
          (sessionStart q intent btype false thr))) = true →
      (runFromClassified ora augG augE genO
        (sessionStart q intent btype false thr)).1.final_answer = (pyStrip resp)) ∧
    ((loopRun ora MAX_REASONING_ATTEMPTS
        (sessionStart q intent btype false thr)).use_augmentation = false →
      (runFromClassified ora augG augE genO
        (sessionStart q intent btype false thr)).1 =
        generate_evaluation_answer genO (loopRun ora MAX_REASONING_ATTEMPTS
          (sessionStart q intent btype false thr))) := by
  refine ⟨rfl, ?_, fun ha => ?_, fun ha hg h7 hs => ?_, fun ha => ?_⟩
  · unfold runFromClassified
    rw [show (sessionStart q intent btype true thr).business_type = btype from rfl]
    rw [if_neg (by simp [hb1, hb2])]
    rw [show (sessionStart q intent btype true thr).requires_trade_secret_filter
      = true from rfl]
    rw [if_pos rfl]
  · rw [runFromClassified_loop_route ora augG augE genO q intent btype thr hb1 hb2]
    rw [if_pos ha]
  · subst hg
    rw [runFromClassified_loop_route ora (.ok resp) augE genO q intent btype thr
      hb1 hb2]
    rw [if_pos ha]
    exact ((gpt_aug_ok_iff resp augE _).mpr ⟨h7, hs⟩).2.2
  · rw [runFromClassified_loop_route ora augG augE genO q intent btype thr hb1 hb2]
    rw [if_neg (by simp [ha])]

/-- A fixed low-confidence oracle: every attempt scores 4. -/
def cexOra : Nat → AttemptInput := fun _ =>
  { optimized_query := "dawkowanie"
    results := [wDoc]
    scorerReply := .ok "CONFIDENCE: 4\nREASONING: malo danych" }

set_option maxRecDepth 10000 in
/-- Counterexample to claim C7 as stated: in a dosage session exhausted at
confidence 4 (threshold 6), the evaluation stage sets the dosage-fallback
template as `final_answer`, but the session then routes through
`generate_evaluation_answer` (its `use_augmentation` flag is false and
`escalate` is false), which overwrites the fallback with a freshly generated
answer — the final answer returned by the pipeline is not the fallback text
the earlier stage set. -/
theorem claim_C7_counterexample :
    (loopRun cexOra MAX_REASONING_ATTEMPTS
      (sessionStart "ile ml AF Power Elixir" "dosage" "none" false 6)).final_answer
      = dosageFallbackResponse ∧
    (runFromClassified cexOra (.ok "x") (.ok "x")
      (.ok "Sprawdz etykiete produktu.")
      (sessionStart "ile ml AF Power Elixir" "dosage" "none" false 6)).1.final_answer
      ≠ dosageFallbackResponse := by
  constructor
  · exact (dosage_run3 cexOra _ rfl rfl rfl (by decide) (by decide) (by decide)).1
  · decide

theorem claim_C7_witness :
    (runFromClassified wOra (.ok "x") (.ok "x") (.ok "x")
      (sessionStart "jak powstaje" "production" "none" true 5)).1 =
      check_trade_secrets (sessionStart "jak powstaje" "production" "none" true 5) :=
  (claim_C7_passthrough_amended wOra (.ok "x") (.ok "x") (.ok "x")
    "jak powstaje" "production" "none" 5 "resp" (by decide) (by decide)).2.1

/-- Claim C8: the Adequacy Scorer is total: an empty document list yields
confidence 0.0 deterministically and independently of the oracle (no call
observable); an oracle exception yields the fixed confidence 3.0 with an
error-tagged rationale; and in every case the returned confidence lies in
the interval 0 to 10. -/
theorem claim_C8_scorer_total (o o2 : Except String String)
    (q q2 q3 : String) (rs rs2 : List Doc) (e : String) (hne : rs ≠ []) :
    evaluate_content_quality o q [] = (0, "No search results to evaluate") ∧
    evaluate_content_quality o q [] = evaluate_content_quality o2 q [] ∧
    evaluate_content_quality (.error e) q2 rs =
      (3, "Evaluation failed: " ++ e) ∧
    0 ≤ (evaluate_content_quality o q3 rs2).1 ∧
    (evaluate_content_quality o q3 rs2).1 ≤ 10 := by
  refine ⟨rfl, rfl, ?_, ?_, ?_⟩
  · unfold evaluate_content_quality
    rw [if_neg (by simp [List.isEmpty_iff, hne])]
  · unfold evaluate_content_quality
    split_ifs with h
    · norm_num
    · cases o with
      | error e2 => norm_num
      | ok txt =>
        exact (extractConfidence_bounds txt 5 (by norm_num) (by norm_num)).1
  · unfold evaluate_content_quality
    split_ifs with h
    · norm_num
    · cases o with
      | error e2 => norm_num
      | ok txt =>
        exact (extractConfidence_bounds txt 5 (by norm_num) (by norm_num)).2

theorem claim_C8_witness :
    ([wDoc] : List Doc) ≠ [] ∧
    evaluate_content_quality (.error "timeout") "q" [wDoc] =
      (3, "Evaluation failed: " ++ "timeout") ∧
    0 ≤ (evaluate_content_quality (.ok "CONFIDENCE: 9") "q" [wDoc]).1 ∧
    (evaluate_content_quality (.ok "CONFIDENCE: 9") "q" [wDoc]).1 ≤ 10 :=
  ⟨by decide,
    (claim_C8_scorer_total (.ok "CONFIDENCE: 9") (.ok "x") "q" "q" "q"
      [wDoc] [wDoc] "timeout" (by decide)).2.2.1,
    (claim_C8_scorer_total (.ok "CONFIDENCE: 9") (.ok "x") "q" "q" "q"
      [wDoc] [wDoc] "timeout" (by decide)).2.2.2.1,
    (claim_C8_scorer_total (.ok "CONFIDENCE: 9") (.ok "x") "q" "q" "q"
      [wDoc] [wDoc] "timeout" (by decide)).2.2.2.2⟩

/-- Claim C9: the confidence parser handles single-digit scores and the
documented defaults (5.0 in content evaluation, 3.0 in the augmentation
second pass), but the regular expression pattern `CONFIDENCE:` + `\s*` +
`([1-9]|10)` parses the reply `CONFIDENCE: 10` as confidence 1, not 10:
Python alternation is leftmost-first, so `[1-9]` consumes the leading `1`
of `10` — the explicit `10` alternative in the code is unreachable.  This
theorem evaluates the embedded parser at the failing input. -/
theorem claim_C9_confidence_ten_misparsed :
    (evaluate_content_quality (.ok "CONFIDENCE: 10\nREASONING: excellent")
      "q" [wDoc]).1 = 1 ∧
    (evaluate_content_quality (.ok "CONFIDENCE: 7\nREASONING: ok")
      "q" [wDoc]).1 = 7 ∧
    (evaluate_content_quality (.ok "brak wzorca") "q" [wDoc]).1 = 5 ∧
    (evaluate_augmented_response (.ok "brak wzorca") "a" "b" "c").1 = 3 ∧
    extractConfidence "CONFIDENCE: 10" 5 = 1 :=
  ⟨by decide, by decide, by decide, by decide, by decide⟩

/-- Claim C10: the augmentation safety gate's grounding-reference check
passes for every response whose lowercase form contains `aquaforest`; since
the contact-keyword list contains `aquaforest.eu`, any response containing
the contact URL satisfies both the contact check and the grounding check —
the gate never forces a distinct `based on available information` phrase. -/
theorem claim_C10_brand_satisfies_grounding (resp resp2 : String)
    (h1 : strContains (pyLower resp) "aquaforest" = true)
    (h2 : strContains (pyLower resp2) "aquaforest.eu" = true) :
    hasFoundationRef resp = true ∧
    hasContactRef resp2 = true ∧ hasFoundationRef resp2 = true := by
  refine ⟨?_, ?_, ?_⟩
  · unfold hasFoundationRef foundation_keywords
    simp only [List.any_eq_true]
    exact ⟨"aquaforest", by simp, h1⟩
  · unfold hasContactRef contact_keywords
    simp only [List.any_eq_true]
    exact ⟨"aquaforest.eu", by simp, h2⟩
  · unfold hasFoundationRef foundation_keywords
    simp only [List.any_eq_true]
    exact ⟨"aquaforest", by simp,
      strContains_of_super _ "aquaforest" "aquaforest.eu" (by decide) h2⟩

theorem claim_C10_witness :
    strContains (pyLower "Zobacz oferte na AquaForest.EU teraz") "aquaforest.eu"
      = true ∧
    hasContactRef "Zobacz oferte na AquaForest.EU teraz" = true ∧
    hasFoundationRef "Zobacz oferte na AquaForest.EU teraz" = true :=
  ⟨by decide,
    (claim_C10_brand_satisfies_grounding "AQUAFOREST"
      "Zobacz oferte na AquaForest.EU teraz" (by decide) (by decide)).2.1,
    (claim_C10_brand_satisfies_grounding "AQUAFOREST"
      "Zobacz oferte na AquaForest.EU teraz" (by decide) (by decide)).2.2⟩
